import Mathlib

/-!
Verification of the puppeteer-cli argument-to-API mapping layer.

The development shallowly embeds src/index.js: the pure helper functions
(buildLaunchOptions, buildNavigationOptions, buildCookies, the viewport
regex parsing, the target resolution ternary) become Lean functions, and
the two command bodies (print, screenshot) become functions from the
parsed argument structure and an engine oracle (the outcome of each
awaited browser-automation call) to the ordered list of externally
visible events plus the process outcome.

The npm packages is-url, url-parse and file-url are dependencies whose
sources are not part of this repository; they are modelled from the
specification where noted.
-/

deriving instance DecidableEq for Except

/-- A cookie record as built by buildCookies (src/index.js lines 249-261). -/
structure Cookie where
  name : String
  value : String
  url : String
deriving DecidableEq, Repr

/-- The value of the yargs option `cookie` (type string): a single
occurrence of the flag yields the bare string, repeated occurrences yield
the list of strings. -/
inductive CookieArg where
  | one (s : String)
  | many (l : List String)
deriving DecidableEq, Repr

/-- The JavaScript spread `[...cookie]` of src/index.js line 250: spreading
a string iterates its characters, each becoming a one-character string;
spreading an array yields its elements. -/
def spreadCookieArg : CookieArg → List String
  | CookieArg.one s => s.toList.map (fun c => String.singleton c)
  | CookieArg.many l => l

/-- JavaScript truthiness of the `cookie` argument: undefined and the empty
string are falsy, every non-empty string and every array is truthy
(guard on src/index.js lines 130 and 207). -/
def cookieArgTruthy : Option CookieArg → Bool
  | none => false
  | some (CookieArg.one s) => !(s == "")
  | some (CookieArg.many _) => true

/-- The cookie argument behind a truthy guard (defaults to an empty list
when absent, a case the guard excludes). -/
def cookieArgValue : Option CookieArg → CookieArg
  | none => CookieArg.many []
  | some a => a

/-- One step of buildCookies (src/index.js lines 250-259): find the first
`:` via indexOf, throw when absent, otherwise split via substr. -/
def parseCookieString (url : String) (cookieString : String) : Except String Cookie :=
  match cookieString.toList.findIdx? (fun c => c == ':') with
  | none => Except.error "cookie must contain : delimiter"
  | some delimiterOffset =>
      Except.ok
        { name := String.mk (cookieString.toList.take delimiterOffset)
          value := String.mk (cookieString.toList.drop (delimiterOffset + 1))
          url := url }

/-- The `.map` of src/index.js line 250 with exception propagation: the
callback runs left to right and the first throw aborts the whole map. -/
def mapThrow (url : String) : List String → Except String (List Cookie)
  | [] => Except.ok []
  | s :: rest =>
      match parseCookieString url s with
      | Except.error e => Except.error e
      | Except.ok c =>
          match mapThrow url rest with
          | Except.error e => Except.error e
          | Except.ok cs => Except.ok (c :: cs)

/-- buildCookies (src/index.js lines 249-261). It receives the whole argv
object, so the `url` field it reads is the raw positional argument. -/
def buildCookies (url : String) (cookie : CookieArg) : Except String (List Cookie) :=
  mapThrow url (spreadCookieArg cookie)

/-- True when the string contains no colon delimiter. -/
def hasNoColon (s : String) : Bool := s.toList.all (fun ch => !(ch == ':'))

/-- True when some supplied cookie string contains no colon: the single
string itself for one occurrence, or some element for repeated
occurrences. -/
def someCookieMissingColon : CookieArg → Bool
  | CookieArg.one s => hasNoColon s
  | CookieArg.many l => l.any hasNoColon

/-- buildLaunchOptions (src/index.js lines 230-240). -/
def buildLaunchArgs (sandbox : Bool) : List String :=
  if sandbox = false then ["--no-sandbox", "--disable-setuid-sandbox"] else []

/-- JavaScript truthiness of an optional string value. -/
def strTruthy : Option String → Bool
  | none => false
  | some s => !(s == "")

/-- JavaScript `value || null` on an optional string: undefined and the
empty string collapse to null (src/index.js lines 161 and 217). -/
def jsStringOrNull : Option String → Option String
  | none => none
  | some s => if s == "" then none else some s

/-- JavaScript template `${argv.output || 'STDOUT'}` of src/index.js
lines 138 and 215. -/
def outputName : Option String → String
  | none => "STDOUT"
  | some s => if s == "" then "STDOUT" else s

/-- The capture groups of the viewport regular expression
`^(?<width>\d+)[xX](?<height>\d+)$` (src/index.js line 192): a non-empty
run of decimal digits, one `x` or `X`, and a non-empty run of decimal
digits spanning the whole string. -/
def viewportGroups (s : String) : Option (String × String) :=
  let cs := s.toList
  let w := cs.takeWhile Char.isDigit
  match cs.dropWhile Char.isDigit with
  | [] => none
  | x :: h =>
      if (x == 'x' || x == 'X') && !w.isEmpty && !h.isEmpty && h.all Char.isDigit then
        some (String.mk w, String.mk h)
      else none

/-- JavaScript parseInt on a string of decimal digits. -/
def parseDigits (s : String) : Nat :=
  s.toList.foldl (fun acc c => acc * 10 + (c.toNat - '0'.toNat)) 0

/-- The parsed viewport dimensions: the integer width and height obtained
from the regex capture groups (src/index.js lines 199-204). -/
def parseViewport (s : String) : Option (Nat × Nat) :=
  (viewportGroups s).map (fun g => (parseDigits g.1, parseDigits g.2))

/-- Modelled from the spec: the is-url package (a dependency whose source
is not part of this repository) recognizes syntactically valid absolute
URLs; modelled as an alphabetic scheme followed by `://` and a non-empty
remainder. -/
def is_url (s : String) : Bool :=
  let cs := s.toList
  let scheme := cs.takeWhile Char.isAlpha
  let rest := cs.drop scheme.length
  !scheme.isEmpty && rest.take 3 == [':', '/', '/'] && !(rest.drop 3).isEmpty

/-- Modelled from the spec: `parseUrl(url).toString()` of the url-parse
package (a dependency whose source is not part of this repository); the
spec states a recognized absolute URL is returned normalized/unchanged. -/
def parseUrlToString (s : String) : String := s

/-- Characters left unescaped by the percent-encoding of the modelled
file-url conversion. -/
def fileUrlSafeChar (c : Char) : Bool :=
  c.isAlphanum || c == '/' || c == '.' || c == '-' || c == '_' || c == '~'

/-- Hexadecimal digit for percent-encoding. -/
def hexDigitChar (n : Nat) : Char :=
  if n < 10 then Char.ofNat ('0'.toNat + n) else Char.ofNat ('A'.toNat + (n - 10))

/-- Percent-encode one character when it is unsafe in a URL. -/
def percentEncodeChar (c : Char) : List Char :=
  if fileUrlSafeChar c then [c]
  else ['%', hexDigitChar (c.toNat / 16 % 16), hexDigitChar (c.toNat % 16)]

/-- Modelled from the spec: the file-url package (a dependency whose
source is not part of this repository) converts a filesystem path into a
`file://` address, resolving relative paths against the current working
directory and percent-encoding characters unsafe in a URL. -/
def fileUrl (path : String) (cwd : String) : String :=
  let abs := if path.toList.take 1 == ['/'] then path else cwd ++ "/" ++ path
  "file://" ++ String.mk ((abs.toList.map percentEncodeChar).flatten)

/-- Target resolution (src/index.js lines 128 and 189):
`isUrl(argv.url) ? parseUrl(argv.url).toString() : fileUrl(argv.url)`. -/
def resolveTarget (url : String) (cwd : String) : String :=
  if is_url url then parseUrlToString url else fileUrl url cwd

/-- The parsed arguments of the print command (src/index.js lines 30-84),
with yargs defaults applied; optional positionals and flags without a
default are Option-typed. -/
structure PrintArgv where
  url : String
  output : Option String
  sandbox : Bool
  timeout : Nat
  waitUntil : String
  cookie : Option CookieArg
  emulateMedia : String
  injectJs : String
  scale : Int
  background : Bool
  marginTop : String
  marginRight : String
  marginBottom : String
  marginLeft : String
  format : String
  landscape : Bool
  displayHeaderFooter : Bool
  headerTemplate : String
  footerTemplate : String
deriving DecidableEq, Repr

/-- The parsed arguments of the screenshot command (src/index.js
lines 93-110). -/
structure ScreenshotArgv where
  url : String
  output : Option String
  sandbox : Bool
  timeout : Nat
  waitUntil : String
  cookie : Option CookieArg
  fullPage : Bool
  omitBackground : Bool
  viewport : Option String
deriving DecidableEq, Repr

/-- The option object passed to page.pdf (src/index.js lines 160-176).
Absent (undefined or null) members are none. -/
structure PdfOptions where
  path : Option String
  format : Option String
  width : Option String
  height : Option Nat
  scale : Int
  landscape : Bool
  printBackground : Bool
  marginTop : String
  marginRight : String
  marginBottom : String
  marginLeft : String
  displayHeaderFooter : Bool
  headerTemplate : String
  footerTemplate : String
deriving DecidableEq, Repr

/-- The option object passed to page.screenshot (src/index.js
lines 216-220). -/
structure ScreenshotOptions where
  path : Option String
  fullPage : Bool
  omitBackground : Bool
deriving DecidableEq, Repr

/-- The outcome of one awaited browser-automation call: resolution, or
rejection with an error message. The oracle fixes the behaviour of the
external engine for one invocation. -/
structure Engine where
  launch : Except String Unit
  newPage : Except String Unit
  setViewport : Except String Unit
  setCookie : Except String Unit
  goto : Except String Unit
  evalHeight : Except String Nat
  evalScripts : Except String (String × String)
  evalInject : Except String Unit
  emulateMedia : Except String Unit
  pdf : Except String Unit
  screenshot : Except String Unit
  close : Except String Unit
deriving DecidableEq, Repr

/-- Externally visible actions of one invocation, in program order:
engine calls with their option payloads, writes to the diagnostic
stream, and the write of the result buffer to standard output. -/
inductive Event where
  | launch (args : List String)
  | newPage
  | setJavaScriptEnabled (enabled : Bool)
  | setViewport (width : Nat) (height : Nat)
  | setCookies (cookies : List Cookie)
  | goto (url : String) (timeout : Nat) (waitUntil : String)
  | evalScriptTags
  | evaluate (script : String)
  | emulateMedia (mediaType : String)
  | pdf (options : PdfOptions)
  | screenshotCall (options : ScreenshotOptions)
  | writeStdout
  | stderrMsg (message : String)
deriving DecidableEq, Repr

/-- How the process ends: the handler completes (exit status 0), or
process.exit is reached with the given status. -/
inductive Outcome where
  | success
  | exit (code : Nat)
deriving DecidableEq, Repr

/-- Prepend one event to the result of the rest of the run. -/
def withEvent (e : Event) (r : List Event × Outcome) : List Event × Outcome :=
  (e :: r.1, r.2)

/-- The catch branch of the print handler (src/index.js lines 88-91). -/
def printFail (e : String) : List Event × Outcome :=
  ([Event.stderrMsg ("Failed to generate pdf: " ++ e)], Outcome.exit 1)

/-- The catch branch of the screenshot handler (src/index.js
lines 114-117). -/
def scrFail (e : String) : List Event × Outcome :=
  ([Event.stderrMsg ("Failed to take screenshot: " ++ e)], Outcome.exit 1)

/-- The usage message of the invalid-viewport branch (src/index.js
line 195). -/
def viewportUsageMsg : String :=
  "Option --viewport must be in the format ###x### e.g. 800x600"

/-- The height-measuring expression evaluated in the page for
`--format auto` (src/index.js lines 142-143). -/
def autoHeightExpr : String :=
  "Math.max(document.body.scrollHeight, document.body.offsetHeight, document.documentElement.clientHeight, document.documentElement.scrollHeight, document.documentElement.offsetHeight)"

/-- The option object of the page.pdf call (src/index.js lines 160-176);
hw is the (height, width) pair computed in lines 140-145: set when the
format is `auto`, both undefined otherwise. -/
def buildPdfOptions (argv : PrintArgv) (hw : Option Nat × Option String) : PdfOptions :=
  { path := jsStringOrNull argv.output
    format := if argv.format = "auto" then none else some argv.format
    width := hw.2
    height := hw.1
    scale := argv.scale
    landscape := argv.landscape
    printBackground := argv.background
    marginTop := argv.marginTop
    marginRight := argv.marginRight
    marginBottom := argv.marginBottom
    marginLeft := argv.marginLeft
    displayHeaderFooter := argv.displayHeaderFooter
    headerTemplate := argv.headerTemplate
    footerTemplate := argv.footerTemplate }

/-- The option object of the page.screenshot call (src/index.js
lines 216-220). -/
def buildScreenshotOptions (argv : ScreenshotArgv) : ScreenshotOptions :=
  { path := jsStringOrNull argv.output
    fullPage := argv.fullPage
    omitBackground := argv.omitBackground }

/-- Tail of print: the Done message and browser.close (src/index.js
lines 182-183). -/
def printFinish (eng : Engine) : List Event × Outcome :=
  withEvent (Event.stderrMsg "Done") <|
  match eng.close with
  | Except.error e => printFail e
  | Except.ok _ => ([], Outcome.success)

/-- print, pdf rendering and output routing (src/index.js lines 160-183). -/
def printStage7 (argv : PrintArgv) (eng : Engine) (hw : Option Nat × Option String) :
    List Event × Outcome :=
  withEvent (Event.pdf (buildPdfOptions argv hw)) <|
  match eng.pdf with
  | Except.error e => printFail e
  | Except.ok _ =>
      if strTruthy argv.output then printFinish eng
      else withEvent Event.writeStdout (printFinish eng)

/-- print, media emulation (src/index.js lines 157-159). -/
def printStage6 (argv : PrintArgv) (eng : Engine) (hw : Option Nat × Option String) :
    List Event × Outcome :=
  if argv.emulateMedia ≠ "" then
    withEvent (Event.emulateMedia argv.emulateMedia) <|
    match eng.emulateMedia with
    | Except.error e => printFail e
    | Except.ok _ => printStage7 argv eng hw
  else printStage7 argv eng hw

/-- print, script injection (src/index.js lines 147-155): the page is
queried for the text of its script#before and script#after elements and
the injected script is evaluated between them. -/
def printStage5 (argv : PrintArgv) (eng : Engine) (hw : Option Nat × Option String) :
    List Event × Outcome :=
  if argv.injectJs ≠ "" then
    withEvent Event.evalScriptTags <|
    match eng.evalScripts with
    | Except.error e => printFail e
    | Except.ok scripts =>
        withEvent (Event.evaluate (scripts.1 ++ ";" ++ argv.injectJs ++ ";" ++ scripts.2)) <|
        match eng.evalInject with
        | Except.error e => printFail e
        | Except.ok _ => printStage6 argv eng hw
  else printStage6 argv eng hw

/-- print, the Writing message and the auto-format height measurement
(src/index.js lines 138-145). -/
def printStage4 (argv : PrintArgv) (eng : Engine) : List Event × Outcome :=
  withEvent (Event.stderrMsg ("Writing " ++ outputName argv.output)) <|
  if argv.format = "auto" then
    withEvent (Event.evaluate autoHeightExpr) <|
    match eng.evalHeight with
    | Except.error e => printFail e
    | Except.ok h => printStage5 argv eng (some h, some "1366")
  else printStage5 argv eng (none, none)

/-- print, navigation (src/index.js lines 135-136). -/
def printStage3 (argv : PrintArgv) (eng : Engine) (url : String) : List Event × Outcome :=
  withEvent (Event.stderrMsg ("Loading " ++ url)) <|
  withEvent (Event.goto url argv.timeout argv.waitUntil) <|
  match eng.goto with
  | Except.error e => printFail e
  | Except.ok _ => printStage4 argv eng

/-- print, cookie handling (src/index.js lines 130-133): buildCookies
receives argv, so the url it tags cookies with is the raw positional. -/
def printStage2 (argv : PrintArgv) (eng : Engine) (url : String) : List Event × Outcome :=
  if cookieArgTruthy argv.cookie then
    withEvent (Event.stderrMsg "Setting cookies") <|
    match buildCookies argv.url (cookieArgValue argv.cookie) with
    | Except.error e => printFail e
    | Except.ok cs =>
        withEvent (Event.setCookies cs) <|
        match eng.setCookie with
        | Except.error e => printFail e
        | Except.ok _ => printStage3 argv eng url
  else printStage3 argv eng url

/-- The whole print command body under its handler (src/index.js
lines 85-92 and 124-184). -/
def printRun (argv : PrintArgv) (eng : Engine) (cwd : String) : List Event × Outcome :=
  withEvent (Event.launch (buildLaunchArgs argv.sandbox)) <|
  match eng.launch with
  | Except.error e => printFail e
  | Except.ok _ =>
      withEvent Event.newPage <|
      match eng.newPage with
      | Except.error e => printFail e
      | Except.ok _ =>
          withEvent (Event.setJavaScriptEnabled false) <|
          printStage2 argv eng (resolveTarget argv.url cwd)

/-- Tail of screenshot: the Done message and browser.close (src/index.js
lines 226-227). -/
def scrFinish (eng : Engine) : List Event × Outcome :=
  withEvent (Event.stderrMsg "Done") <|
  match eng.close with
  | Except.error e => scrFail e
  | Except.ok _ => ([], Outcome.success)

/-- screenshot, capture and output routing (src/index.js lines 215-227). -/
def scrStage5 (argv : ScreenshotArgv) (eng : Engine) : List Event × Outcome :=
  withEvent (Event.stderrMsg ("Writing " ++ outputName argv.output)) <|
  withEvent (Event.screenshotCall (buildScreenshotOptions argv)) <|
  match eng.screenshot with
  | Except.error e => scrFail e
  | Except.ok _ =>
      if strTruthy argv.output then scrFinish eng
      else withEvent Event.writeStdout (scrFinish eng)

/-- screenshot, navigation (src/index.js lines 212-213). -/
def scrStage4 (argv : ScreenshotArgv) (eng : Engine) (url : String) : List Event × Outcome :=
  withEvent (Event.stderrMsg ("Loading " ++ url)) <|
  withEvent (Event.goto url argv.timeout argv.waitUntil) <|
  match eng.goto with
  | Except.error e => scrFail e
  | Except.ok _ => scrStage5 argv eng

/-- screenshot, cookie handling (src/index.js lines 207-210). -/
def scrStage3 (argv : ScreenshotArgv) (eng : Engine) (url : String) : List Event × Outcome :=
  if cookieArgTruthy argv.cookie then
    withEvent (Event.stderrMsg "Setting cookies") <|
    match buildCookies argv.url (cookieArgValue argv.cookie) with
    | Except.error e => scrFail e
    | Except.ok cs =>
        withEvent (Event.setCookies cs) <|
        match eng.setCookie with
        | Except.error e => scrFail e
        | Except.ok _ => scrStage4 argv eng url
  else scrStage4 argv eng url

/-- screenshot, viewport handling (src/index.js lines 191-205): on a
malformed non-empty viewport string the usage message is written and
process.exit(1) is reached, so nothing later runs. -/
def scrStage2 (argv : ScreenshotArgv) (eng : Engine) (url : String) : List Event × Outcome :=
  if strTruthy argv.viewport then
    match viewportGroups ((argv.viewport).getD "") with
    | none => ([Event.stderrMsg viewportUsageMsg], Outcome.exit 1)
    | some g =>
        withEvent (Event.stderrMsg ("Setting viewport to " ++ g.1 ++ "x" ++ g.2)) <|
        withEvent (Event.setViewport (parseDigits g.1) (parseDigits g.2)) <|
        match eng.setViewport with
        | Except.error e => scrFail e
        | Except.ok _ => scrStage3 argv eng url
  else scrStage3 argv eng url

/-- The whole screenshot command body under its handler (src/index.js
lines 111-118 and 186-228). -/
def screenshotRun (argv : ScreenshotArgv) (eng : Engine) (cwd : String) :
    List Event × Outcome :=
  withEvent (Event.launch (buildLaunchArgs argv.sandbox)) <|
  match eng.launch with
  | Except.error e => scrFail e
  | Except.ok _ =>
      withEvent Event.newPage <|
      match eng.newPage with
      | Except.error e => scrFail e
      | Except.ok _ => scrStage2 argv eng (resolveTarget argv.url cwd)

/-- The (height, width) pair of src/index.js lines 140-145 as a function
of the format flag: when the format is `auto` the height is the result of
the page evaluation and the width the string 1366, otherwise both stay
undefined. -/
def hwSpec (argv : PrintArgv) (eng : Engine) (hw : Option Nat × Option String) : Prop :=
  (argv.format = "auto" → ∃ h, eng.evalHeight = Except.ok h ∧ hw = (some h, some "1366")) ∧
  (argv.format ≠ "auto" → hw = (none, none))

/-- Shape of every event a print invocation can emit: each engine call of
the print body, with the payload constraints that hold at its one call
site. -/
def printEventShape (argv : PrintArgv) (e : Event) : Prop :=
  (∃ s, e = Event.stderrMsg s) ∨
  e = Event.launch (buildLaunchArgs argv.sandbox) ∨
  e = Event.newPage ∨
  e = Event.setJavaScriptEnabled false ∨
  (∃ cs, buildCookies argv.url (cookieArgValue argv.cookie) = Except.ok cs ∧
    e = Event.setCookies cs) ∨
  (∃ u, e = Event.goto u argv.timeout argv.waitUntil) ∨
  e = Event.evalScriptTags ∨
  (∃ s, e = Event.evaluate s) ∨
  e = Event.emulateMedia argv.emulateMedia ∨
  (∃ o, e = Event.pdf o) ∨
  (strTruthy argv.output = false ∧ e = Event.writeStdout)

/-- Shape of every event a screenshot invocation can emit. -/
def scrEventShape (argv : ScreenshotArgv) (e : Event) : Prop :=
  (∃ s, e = Event.stderrMsg s) ∨
  e = Event.launch (buildLaunchArgs argv.sandbox) ∨
  e = Event.newPage ∨
  (∃ g, viewportGroups ((argv.viewport).getD "") = some g ∧
    e = Event.setViewport (parseDigits g.1) (parseDigits g.2)) ∨
  (∃ cs, buildCookies argv.url (cookieArgValue argv.cookie) = Except.ok cs ∧
    e = Event.setCookies cs) ∨
  (∃ u, e = Event.goto u argv.timeout argv.waitUntil) ∨
  e = Event.screenshotCall (buildScreenshotOptions argv) ∨
  (strTruthy argv.output = false ∧ e = Event.writeStdout)

/-- An engine oracle on which every call resolves; concrete heights and
script-tag texts stand in for page content. -/
def engOk : Engine :=
  { launch := Except.ok ()
    newPage := Except.ok ()
    setViewport := Except.ok ()
    setCookie := Except.ok ()
    goto := Except.ok ()
    evalHeight := Except.ok 2000
    evalScripts := Except.ok ("BEFORE", "AFTER")
    evalInject := Except.ok ()
    emulateMedia := Except.ok ()
    pdf := Except.ok ()
    screenshot := Except.ok ()
    close := Except.ok () }

/-- Print arguments with every flag at its yargs default. -/
def printArgvBase : PrintArgv :=
  { url := "page.html"
    output := none
    sandbox := true
    timeout := 30000
    waitUntil := "load"
    cookie := none
    emulateMedia := ""
    injectJs := ""
    scale := 1
    background := true
    marginTop := "6.25mm"
    marginRight := "6.25mm"
    marginBottom := "14.11mm"
    marginLeft := "6.25mm"
    format := "Letter"
    landscape := false
    displayHeaderFooter := false
    headerTemplate := ""
    footerTemplate := "" }

/-- Screenshot arguments with every flag at its yargs default. -/
def scrArgvBase : ScreenshotArgv :=
  { url := "page.html"
    output := none
    sandbox := true
    timeout := 30000
    waitUntil := "load"
    cookie := none
    fullPage := true
    omitBackground := false
    viewport := none }

/-- Print arguments requesting the auto paper format. -/
def printArgvAuto : PrintArgv := { printArgvBase with format := "auto" }

/-- Print arguments with one repeated-style cookie a:b and a local-path
url argument. -/
def printArgvCookie : PrintArgv :=
  { printArgvBase with cookie := some (CookieArg.many ["a:b"]) }

/-- Print arguments whose output positional is the empty string. -/
def printArgvOutEmpty : PrintArgv := { printArgvBase with output := some "" }

/-- Print arguments with a non-empty output path. -/
def printArgvOut : PrintArgv := { printArgvBase with output := some "out.pdf" }

/-- Print arguments with a single cookie occurrence that is the empty
string. -/
def printArgvCookieEmptyOne : PrintArgv :=
  { printArgvBase with cookie := some (CookieArg.one "") }

/-- Print arguments with repeated cookies one of which lacks the
delimiter. -/
def printArgvCookieMissing : PrintArgv :=
  { printArgvBase with cookie := some (CookieArg.many ["a:b", "nocolon"]) }

/-- Print arguments with a script to inject. -/
def printArgvInject : PrintArgv := { printArgvBase with injectJs := "doStuff()" }

/-- Screenshot arguments whose viewport option is the empty string. -/
def scrArgvViewportEmpty : ScreenshotArgv := { scrArgvBase with viewport := some "" }

/-- Screenshot arguments with the viewport 800x600. -/
def scrArgvViewport : ScreenshotArgv := { scrArgvBase with viewport := some "800x600" }

/-- Screenshot arguments with a malformed non-empty viewport string. -/
def scrArgvViewportBad : ScreenshotArgv := { scrArgvBase with viewport := some "800x" }

/-- Screenshot arguments with a cookie lacking the delimiter. -/
def scrArgvCookieMissing : ScreenshotArgv :=
  { scrArgvBase with cookie := some (CookieArg.many ["nocolon"]) }

/-- Screenshot arguments with a non-empty output path. -/
def scrArgvOut : ScreenshotArgv := { scrArgvBase with output := some "out.png" }

/-- An engine whose navigation call rejects. -/
def engGotoFail : Engine := { engOk with goto := Except.error "net::ERR_FAILED" }

example : (printRun printArgvBase engOk "/root").2 = Outcome.success := by decide
example : Event.goto "file:///root/page.html" 30000 "load" ∈
    (printRun printArgvBase engOk "/root").1 := by decide
example : (screenshotRun scrArgvBase engOk "/root").2 = Outcome.success := by decide
example : (printRun printArgvBase { engOk with goto := Except.error "net" } "/root").2 =
    Outcome.exit 1 := by decide

theorem mem_printFinish (eng : Engine) (e : Event) :
    e ∈ (printFinish eng).1 → ∃ s, e = Event.stderrMsg s := by
  unfold printFinish
  intro hm
  rcases h : eng.close with er | u <;> rw [h] at hm <;>
    simp [withEvent, printFail] at hm
  · rcases hm with rfl | rfl <;> exact ⟨_, rfl⟩
  · exact ⟨_, hm⟩

theorem mem_printStage7 (argv : PrintArgv) (eng : Engine) (hw : Option Nat × Option String)
    (e : Event) : e ∈ (printStage7 argv eng hw).1 → printEventShape argv e := by
  unfold printStage7
  intro hm
  rcases h : eng.pdf with er | u <;> rw [h] at hm
  · simp [withEvent, printFail] at hm
    rcases hm with rfl | rfl <;> simp [printEventShape]
  · by_cases ho : strTruthy argv.output
    · simp [ho, withEvent] at hm
      rcases hm with rfl | hm
      · simp [printEventShape]
      · rcases mem_printFinish eng e hm with ⟨s, rfl⟩
        simp [printEventShape]
    · simp [ho, withEvent] at hm
      rcases hm with rfl | rfl | hm
      · simp [printEventShape]
      · simp [printEventShape, Bool.not_eq_true] at ho ⊢
        exact ho
      · rcases mem_printFinish eng e hm with ⟨s, rfl⟩
        simp [printEventShape]

theorem mem_printStage6 (argv : PrintArgv) (eng : Engine) (hw : Option Nat × Option String)
    (e : Event) : e ∈ (printStage6 argv eng hw).1 → printEventShape argv e := by
  unfold printStage6
  intro hm
  by_cases hme : argv.emulateMedia = ""
  · simp [hme] at hm
    exact mem_printStage7 argv eng hw e hm
  · simp [hme] at hm
    rcases h : eng.emulateMedia with er | u <;> rw [h] at hm
    · simp [withEvent, printFail] at hm
      rcases hm with rfl | rfl <;> simp [printEventShape]
    · simp [withEvent] at hm
      rcases hm with rfl | hm
      · simp [printEventShape]
      · exact mem_printStage7 argv eng hw e hm

theorem mem_printStage5 (argv : PrintArgv) (eng : Engine) (hw : Option Nat × Option String)
    (e : Event) : e ∈ (printStage5 argv eng hw).1 → printEventShape argv e := by
  unfold printStage5
  intro hm
  by_cases hj : argv.injectJs = ""
  · simp [hj] at hm
    exact mem_printStage6 argv eng hw e hm
  · simp [hj] at hm
    rcases h : eng.evalScripts with er | scripts <;> rw [h] at hm
    · simp [withEvent, printFail] at hm
      rcases hm with rfl | rfl <;> simp [printEventShape]
    · rcases hi : eng.evalInject with er | u <;> rw [hi] at hm
      · simp [withEvent, printFail] at hm
        rcases hm with rfl | rfl | rfl <;> simp [printEventShape]
      · simp [withEvent] at hm
        rcases hm with rfl | rfl | hm
        · simp [printEventShape]
        · simp [printEventShape]
        · exact mem_printStage6 argv eng hw e hm

theorem mem_printStage4 (argv : PrintArgv) (eng : Engine) (e : Event) :
    e ∈ (printStage4 argv eng).1 → printEventShape argv e := by
  unfold printStage4
  intro hm
  simp [withEvent] at hm
  rcases hm with rfl | hm
  · simp [printEventShape]
  · by_cases hf : argv.format = "auto"
    · simp [hf] at hm
      rcases h : eng.evalHeight with er | hv <;> rw [h] at hm
      · simp [withEvent, printFail] at hm
        rcases hm with rfl | rfl <;> simp [printEventShape]
      · simp [withEvent] at hm
        rcases hm with rfl | hm
        · simp [printEventShape]
        · exact mem_printStage5 argv eng _ e hm
    · simp [hf] at hm
      exact mem_printStage5 argv eng _ e hm

theorem mem_printStage3 (argv : PrintArgv) (eng : Engine) (url : String) (e : Event) :
    e ∈ (printStage3 argv eng url).1 → printEventShape argv e := by
  unfold printStage3
  intro hm
  rcases h : eng.goto with er | u <;> rw [h] at hm <;> simp [withEvent, printFail] at hm
  · rcases hm with rfl | rfl | rfl <;> simp [printEventShape]
  · rcases hm with rfl | rfl | hm
    · simp [printEventShape]
    · simp [printEventShape]
    · exact mem_printStage4 argv eng e hm

theorem mem_printStage2 (argv : PrintArgv) (eng : Engine) (url : String) (e : Event) :
    e ∈ (printStage2 argv eng url).1 → printEventShape argv e := by
  unfold printStage2
  intro hm
  by_cases hc : cookieArgTruthy argv.cookie
  · simp [hc] at hm
    rcases h : buildCookies argv.url (cookieArgValue argv.cookie) with er | cs <;> rw [h] at hm
    · simp [withEvent, printFail] at hm
      rcases hm with rfl | rfl <;> simp [printEventShape]
    · rcases hs : eng.setCookie with er | u <;> rw [hs] at hm
      · simp [withEvent, printFail] at hm
        rcases hm with rfl | rfl | rfl
        · simp [printEventShape]
        · exact Or.inr (Or.inr (Or.inr (Or.inr (Or.inl ⟨cs, h, rfl⟩))))
        · simp [printEventShape]
      · simp [withEvent] at hm
        rcases hm with rfl | rfl | hm
        · simp [printEventShape]
        · exact Or.inr (Or.inr (Or.inr (Or.inr (Or.inl ⟨cs, h, rfl⟩))))
        · exact mem_printStage3 argv eng url e hm
  · simp [hc] at hm
    exact mem_printStage3 argv eng url e hm

theorem mem_printRun (argv : PrintArgv) (eng : Engine) (cwd : String) (e : Event) :
    e ∈ (printRun argv eng cwd).1 → printEventShape argv e := by
  unfold printRun
  intro hm
  rcases h : eng.launch with er | u <;> rw [h] at hm
  · simp [withEvent, printFail] at hm
    rcases hm with rfl | rfl <;> simp [printEventShape]
  · rcases hn : eng.newPage with er | u <;> rw [hn] at hm
    · simp [withEvent, printFail] at hm
      rcases hm with rfl | rfl | rfl <;> simp [printEventShape]
    · simp [withEvent] at hm
      rcases hm with rfl | rfl | rfl | hm
      · simp [printEventShape]
      · simp [printEventShape]
      · simp [printEventShape]
      · exact mem_printStage2 argv eng _ e hm

theorem mem_scrFinish (eng : Engine) (e : Event) :
    e ∈ (scrFinish eng).1 → ∃ s, e = Event.stderrMsg s := by
  unfold scrFinish
  intro hm
  rcases h : eng.close with er | u <;> rw [h] at hm <;>
    simp [withEvent, scrFail] at hm
  · rcases hm with rfl | rfl <;> exact ⟨_, rfl⟩
  · exact ⟨_, hm⟩

theorem mem_scrStage5 (argv : ScreenshotArgv) (eng : Engine) (e : Event) :
    e ∈ (scrStage5 argv eng).1 → scrEventShape argv e := by
  unfold scrStage5
  intro hm
  rcases h : eng.screenshot with er | u <;> rw [h] at hm
  · simp [withEvent, scrFail] at hm
    rcases hm with rfl | rfl | rfl <;> simp [scrEventShape]
  · by_cases ho : strTruthy argv.output
    · simp [ho, withEvent] at hm
      rcases hm with rfl | rfl | hm
      · simp [scrEventShape]
      · simp [scrEventShape]
      · rcases mem_scrFinish eng e hm with ⟨s, rfl⟩
        simp [scrEventShape]
    · simp [ho, withEvent] at hm
      rcases hm with rfl | rfl | rfl | hm
      · simp [scrEventShape]
      · simp [scrEventShape]
      · simp [scrEventShape, Bool.not_eq_true] at ho ⊢
        exact ho
      · rcases mem_scrFinish eng e hm with ⟨s, rfl⟩
        simp [scrEventShape]

theorem mem_scrStage4 (argv : ScreenshotArgv) (eng : Engine) (url : String) (e : Event) :
    e ∈ (scrStage4 argv eng url).1 → scrEventShape argv e := by
  unfold scrStage4
  intro hm
  rcases h : eng.goto with er | u <;> rw [h] at hm <;> simp [withEvent, scrFail] at hm
  · rcases hm with rfl | rfl | rfl <;> simp [scrEventShape]
  · rcases hm with rfl | rfl | hm
    · simp [scrEventShape]
    · simp [scrEventShape]
    · exact mem_scrStage5 argv eng e hm

theorem mem_scrStage3 (argv : ScreenshotArgv) (eng : Engine) (url : String) (e : Event) :
    e ∈ (scrStage3 argv eng url).1 → scrEventShape argv e := by
  unfold scrStage3
  intro hm
  by_cases hc : cookieArgTruthy argv.cookie
  · simp [hc] at hm
    rcases h : buildCookies argv.url (cookieArgValue argv.cookie) with er | cs <;> rw [h] at hm
    · simp [withEvent, scrFail] at hm
      rcases hm with rfl | rfl <;> simp [scrEventShape]
    · rcases hs : eng.setCookie with er | u <;> rw [hs] at hm
      · simp [withEvent, scrFail] at hm
        rcases hm with rfl | rfl | rfl
        · simp [scrEventShape]
        · exact Or.inr (Or.inr (Or.inr (Or.inr (Or.inl ⟨cs, h, rfl⟩))))
        · simp [scrEventShape]
      · simp [withEvent] at hm
        rcases hm with rfl | rfl | hm
        · simp [scrEventShape]
        · exact Or.inr (Or.inr (Or.inr (Or.inr (Or.inl ⟨cs, h, rfl⟩))))
        · exact mem_scrStage4 argv eng url e hm
  · simp [hc] at hm
    exact mem_scrStage4 argv eng url e hm

theorem mem_scrStage2 (argv : ScreenshotArgv) (eng : Engine) (url : String) (e : Event) :
    e ∈ (scrStage2 argv eng url).1 → scrEventShape argv e := by
  unfold scrStage2
  intro hm
  by_cases hv : strTruthy argv.viewport
  · simp [hv] at hm
    rcases hg : viewportGroups ((argv.viewport).getD "") with _ | g <;> rw [hg] at hm
    · simp at hm
      subst hm
      simp [scrEventShape]
    · rcases hs : eng.setViewport with er | u <;> rw [hs] at hm
      · simp [withEvent, scrFail] at hm
        rcases hm with rfl | rfl | rfl
        · simp [scrEventShape]
        · exact Or.inr (Or.inr (Or.inr (Or.inl ⟨g, hg, rfl⟩)))
        · simp [scrEventShape]
      · simp [withEvent] at hm
        rcases hm with rfl | rfl | hm
        · simp [scrEventShape]
        · exact Or.inr (Or.inr (Or.inr (Or.inl ⟨g, hg, rfl⟩)))
        · exact mem_scrStage3 argv eng url e hm
  · simp [hv] at hm
    exact mem_scrStage3 argv eng url e hm

theorem mem_screenshotRun (argv : ScreenshotArgv) (eng : Engine) (cwd : String) (e : Event) :
    e ∈ (screenshotRun argv eng cwd).1 → scrEventShape argv e := by
  unfold screenshotRun
  intro hm
  rcases h : eng.launch with er | u <;> rw [h] at hm
  · simp [withEvent, scrFail] at hm
    rcases hm with rfl | rfl <;> simp [scrEventShape]
  · rcases hn : eng.newPage with er | u <;> rw [hn] at hm
    · simp [withEvent, scrFail] at hm
      rcases hm with rfl | rfl | rfl <;> simp [scrEventShape]
    · simp [withEvent] at hm
      rcases hm with rfl | rfl | hm
      · simp [scrEventShape]
      · simp [scrEventShape]
      · exact mem_scrStage2 argv eng _ e hm

theorem printStage7_pdf (argv : PrintArgv) (eng : Engine) (hw : Option Nat × Option String)
    (o : PdfOptions) : Event.pdf o ∈ (printStage7 argv eng hw).1 → o = buildPdfOptions argv hw := by
  intro hm
  unfold printStage7 at hm
  rcases h : eng.pdf with er | u <;> rw [h] at hm
  · simpa [withEvent, printFail] using hm
  · by_cases ho : strTruthy argv.output <;> simp [ho, withEvent] at hm <;>
      rcases hm with hm | hm
    · exact hm
    · rcases mem_printFinish eng _ hm with ⟨s, hs⟩
      exact absurd hs (by simp)
    · exact hm
    · rcases mem_printFinish eng _ hm with ⟨s, hs⟩
      exact absurd hs (by simp)

theorem printStage6_pdf (argv : PrintArgv) (eng : Engine) (hw : Option Nat × Option String)
    (o : PdfOptions) : Event.pdf o ∈ (printStage6 argv eng hw).1 → o = buildPdfOptions argv hw := by
  intro hm
  unfold printStage6 at hm
  by_cases hme : argv.emulateMedia = "" <;> simp [hme] at hm
  · exact printStage7_pdf argv eng hw o hm
  · rcases h : eng.emulateMedia with er | u <;> rw [h] at hm
    · simp [withEvent, printFail] at hm
    · simp [withEvent] at hm
      exact printStage7_pdf argv eng hw o hm

theorem printStage5_pdf (argv : PrintArgv) (eng : Engine) (hw : Option Nat × Option String)
    (o : PdfOptions) : Event.pdf o ∈ (printStage5 argv eng hw).1 → o = buildPdfOptions argv hw := by
  intro hm
  unfold printStage5 at hm
  by_cases hj : argv.injectJs = "" <;> simp [hj] at hm
  · exact printStage6_pdf argv eng hw o hm
  · rcases h : eng.evalScripts with er | scripts <;> rw [h] at hm
    · simp [withEvent, printFail] at hm
    · rcases hi : eng.evalInject with er | u <;> rw [hi] at hm
      · simp [withEvent, printFail] at hm
      · simp [withEvent] at hm
        exact printStage6_pdf argv eng hw o hm

theorem printStage4_pdf (argv : PrintArgv) (eng : Engine) (o : PdfOptions) :
    Event.pdf o ∈ (printStage4 argv eng).1 →
    ∃ hw, o = buildPdfOptions argv hw ∧ hwSpec argv eng hw := by
  intro hm
  unfold printStage4 at hm
  by_cases hf : argv.format = "auto"
  · simp [hf, withEvent] at hm
    rcases h : eng.evalHeight with er | hv <;> rw [h] at hm
    · simp [withEvent, printFail] at hm
    · simp [withEvent] at hm
      exact ⟨(some hv, some "1366"), printStage5_pdf argv eng _ o hm, by simp [hwSpec, hf, h]⟩
  · simp [hf, withEvent] at hm
    exact ⟨(none, none), printStage5_pdf argv eng _ o hm, by simp [hwSpec, hf]⟩

theorem printStage4_autoeval (argv : PrintArgv) (eng : Engine)
    (hf : argv.format = "auto") :
    Event.evaluate autoHeightExpr ∈ (printStage4 argv eng).1 := by
  unfold printStage4
  simp [hf, withEvent]

theorem printStage3_pdf_sub (argv : PrintArgv) (eng : Engine) (url : String) (o : PdfOptions) :
    Event.pdf o ∈ (printStage3 argv eng url).1 →
    Event.pdf o ∈ (printStage4 argv eng).1 ∧
      ∀ x, x ∈ (printStage4 argv eng).1 → x ∈ (printStage3 argv eng url).1 := by
  intro hm
  unfold printStage3 at hm
  rcases h : eng.goto with er | u
  · rw [h] at hm
    simp [withEvent, printFail] at hm
  · rw [h] at hm
    simp [withEvent] at hm
    refine ⟨hm, ?_⟩
    intro x hx
    unfold printStage3
    rw [h]
    simp [withEvent]
    exact Or.inr (Or.inr hx)

theorem printStage2_pdf_sub (argv : PrintArgv) (eng : Engine) (url : String) (o : PdfOptions) :
    Event.pdf o ∈ (printStage2 argv eng url).1 →
    Event.pdf o ∈ (printStage3 argv eng url).1 ∧
      ∀ x, x ∈ (printStage3 argv eng url).1 → x ∈ (printStage2 argv eng url).1 := by
  intro hm
  unfold printStage2 at hm
  by_cases hc : cookieArgTruthy argv.cookie
  · simp [hc] at hm
    rcases h : buildCookies argv.url (cookieArgValue argv.cookie) with er | cs
    · rw [h] at hm
      simp [withEvent, printFail] at hm
    · rw [h] at hm
      rcases hs : eng.setCookie with er | u
      · rw [hs] at hm
        simp [withEvent, printFail] at hm
      · rw [hs] at hm
        simp [withEvent] at hm
        refine ⟨hm, ?_⟩
        intro x hx
        unfold printStage2
        rw [h]
        simp [hc, hs, withEvent]
        exact Or.inr (Or.inr hx)
  · simp [hc] at hm
    refine ⟨hm, ?_⟩
    intro x hx
    unfold printStage2
    simp [hc]
    exact hx

theorem printRun_pdf_sub (argv : PrintArgv) (eng : Engine) (cwd : String) (o : PdfOptions) :
    Event.pdf o ∈ (printRun argv eng cwd).1 →
    Event.pdf o ∈ (printStage2 argv eng (resolveTarget argv.url cwd)).1 ∧
      ∀ x, x ∈ (printStage2 argv eng (resolveTarget argv.url cwd)).1 →
        x ∈ (printRun argv eng cwd).1 := by
  intro hm
  unfold printRun at hm
  rcases h : eng.launch with er | u
  · rw [h] at hm
    simp [withEvent, printFail] at hm
  · rw [h] at hm
    rcases hn : eng.newPage with er | u
    · rw [hn] at hm
      simp [withEvent, printFail] at hm
    · rw [hn] at hm
      simp [withEvent] at hm
      refine ⟨hm, ?_⟩
      intro x hx
      unfold printRun
      rw [h, hn]
      simp [withEvent]
      exact Or.inr (Or.inr (Or.inr hx))

theorem parseCookieString_url (url s : String) (c : Cookie) :
    parseCookieString url s = Except.ok c → c.url = url := by
  unfold parseCookieString
  rcases hi : s.toList.findIdx? (fun ch => ch == ':') with _ | i
  · intro h
    exact absurd h (by simp)
  · intro h
    simp at h
    rw [← h]

theorem mapThrow_url (url : String) (l : List String) (cs : List Cookie) :
    mapThrow url l = Except.ok cs → ∀ c ∈ cs, c.url = url := by
  induction l generalizing cs with
  | nil =>
      intro h
      simp [mapThrow] at h
      subst h
      simp
  | cons s rest ih =>
      intro h
      unfold mapThrow at h
      rcases hp : parseCookieString url s with er | c0 <;> rw [hp] at h
      · simp at h
      · rcases hr : mapThrow url rest with er | cs' <;> rw [hr] at h
        · simp at h
        · simp at h
          subst h
          intro c hc
          rcases List.mem_cons.mp hc with rfl | hc
          · exact parseCookieString_url url s c hp
          · exact ih cs' hr c hc

theorem buildCookies_url (url : String) (arg : CookieArg) (cs : List Cookie) :
    buildCookies url arg = Except.ok cs → ∀ c ∈ cs, c.url = url :=
  fun h => mapThrow_url url (spreadCookieArg arg) cs h

theorem printShape_setCookies (argv : PrintArgv) (cs : List Cookie)
    (h : printEventShape argv (Event.setCookies cs)) :
    buildCookies argv.url (cookieArgValue argv.cookie) = Except.ok cs := by
  rcases h with ⟨s, h⟩ | h | h | h | ⟨cs', hok, h⟩ | ⟨u, h⟩ | h | ⟨s, h⟩ | h | ⟨o, h⟩ | ⟨_, h⟩ <;>
    simp_all

theorem scrShape_setCookies (argv : ScreenshotArgv) (cs : List Cookie)
    (h : scrEventShape argv (Event.setCookies cs)) :
    buildCookies argv.url (cookieArgValue argv.cookie) = Except.ok cs := by
  rcases h with ⟨s, h⟩ | h | h | ⟨g, hg, h⟩ | ⟨cs', hok, h⟩ | ⟨u, h⟩ | h | ⟨_, h⟩ <;>
    simp_all

/-- Claim C1: the claim expects one cookie record per supplied string
whether one or several strings are supplied. With several strings the
split-at-first-delimiter behaviour holds, but a single supplied string is
spread into its characters by the JavaScript spread operator, so the very
input name:value:extra that the claim describes throws the
missing-delimiter error instead of producing the record — contradicting
the cookie option description in src/index.js line 24. -/
theorem cookie_single_string_code_bug :
    buildCookies "http://example.com/a" (CookieArg.many ["name:value:extra"]) =
      Except.ok [{ name := "name", value := "value:extra", url := "http://example.com/a" }] ∧
    buildCookies "http://example.com/a" (CookieArg.one "name:value:extra") =
      Except.error "cookie must contain : delimiter" := by
  exact ⟨by decide, by decide⟩

/-- Claim C2 counterexample: with the local path page.html as the url
argument and one cookie a:b, the only setCookie call of the run carries a
record tagged page.html, while navigation goes to the resolved address
file:///root/page.html — so the cookie record is not tagged with the
target address the engine navigates to. -/
theorem cookies_raw_url_counterexample :
    ((printRun printArgvCookie engOk "/root").1.filter
        (fun e => match e with | Event.setCookies _ => true | _ => false)) =
      [Event.setCookies [{ name := "a", value := "b", url := "page.html" }]] ∧
    Event.goto "file:///root/page.html" 30000 "load" ∈
      (printRun printArgvCookie engOk "/root").1 ∧
    resolveTarget printArgvCookie.url "/root" = "file:///root/page.html" ∧
    "page.html" ≠ "file:///root/page.html" := by
  exact ⟨by decide, by decide, by decide, by decide⟩

/-- Claim C2 (amended): every cookie record passed to the engine by
either command is tagged in its url field with the raw url argument
exactly as supplied on the command line; this equals the navigated
address only when the input is an absolute URL left unchanged by
normalization. -/
theorem cookies_tagged_with_raw_url (argv : PrintArgv) (sargv : ScreenshotArgv)
    (eng : Engine) (cwd : String) (cs : List Cookie) :
    (Event.setCookies cs ∈ (printRun argv eng cwd).1 → ∀ c ∈ cs, c.url = argv.url) ∧
    (Event.setCookies cs ∈ (screenshotRun sargv eng cwd).1 → ∀ c ∈ cs, c.url = sargv.url) := by
  constructor
  · intro hm
    exact buildCookies_url argv.url _ cs
      (printShape_setCookies argv cs (mem_printRun argv eng cwd _ hm))
  · intro hm
    exact buildCookies_url sargv.url _ cs
      (scrShape_setCookies sargv cs (mem_screenshotRun sargv eng cwd _ hm))

theorem cookies_tagged_with_raw_url_witness :
    Event.setCookies [{ name := "a", value := "b", url := "page.html" }] ∈
      (printRun printArgvCookie engOk "/root").1 ∧
    Cookie.url { name := "a", value := "b", url := "page.html" } = printArgvCookie.url :=
  ⟨by decide,
    (cookies_tagged_with_raw_url printArgvCookie scrArgvBase engOk "/root"
        [{ name := "a", value := "b", url := "page.html" }]).1 (by decide)
      { name := "a", value := "b", url := "page.html" } (by decide)⟩

/-- Claim C3: for the print command, when the format flag is auto every
pdf call of the run receives the height obtained from evaluating the
document scroll/offset maximum expression in the page, the fixed width
string 1366 and no named paper format (the measuring expression is
evaluated in the page during the run); for any other format value no
height or width override is computed and the format string is passed
through unchanged. -/
theorem print_format_dichotomy (argv : PrintArgv) (eng : Engine) (cwd : String)
    (opts : PdfOptions) (hm : Event.pdf opts ∈ (printRun argv eng cwd).1) :
    (argv.format = "auto" →
      Event.evaluate autoHeightExpr ∈ (printRun argv eng cwd).1 ∧
      ∃ h, eng.evalHeight = Except.ok h ∧ opts.height = some h ∧
        opts.width = some "1366" ∧ opts.format = none) ∧
    (argv.format ≠ "auto" →
      opts.height = none ∧ opts.width = none ∧ opts.format = some argv.format) := by
  obtain ⟨hm2, sub2⟩ := printRun_pdf_sub argv eng cwd opts hm
  obtain ⟨hm3, sub3⟩ := printStage2_pdf_sub argv eng _ opts hm2
  obtain ⟨hm4, sub4⟩ := printStage3_pdf_sub argv eng _ opts hm3
  obtain ⟨hw, heq, hspec⟩ := printStage4_pdf argv eng opts hm4
  constructor
  · intro hf
    refine ⟨sub2 _ (sub3 _ (sub4 _ (printStage4_autoeval argv eng hf))), ?_⟩
    obtain ⟨h, hh, hhw⟩ := hspec.1 hf
    exact ⟨h, hh, by simp [heq, hhw, buildPdfOptions, hf]⟩
  · intro hf
    have hn : hw = (none, none) := hspec.2 hf
    simp [heq, hn, buildPdfOptions, hf]

theorem print_format_dichotomy_witness :
    printArgvAuto.format = "auto" ∧
    ∃ h, engOk.evalHeight = Except.ok h ∧
      (buildPdfOptions printArgvAuto (some 2000, some "1366")).height = some h ∧
      (buildPdfOptions printArgvAuto (some 2000, some "1366")).width = some "1366" ∧
      (buildPdfOptions printArgvAuto (some 2000, some "1366")).format = none :=
  ⟨rfl,
    ((print_format_dichotomy printArgvAuto engOk "/root"
        (buildPdfOptions printArgvAuto (some 2000, some "1366")) (by decide)).1 rfl).2⟩

/-- Claim C6: target resolution passes an input recognized as an
absolute URL through to navigation unchanged, and converts any other
input to a file scheme address; the recognizer and the conversion are
modelled from the spec because they live in dependencies outside this
repository, while the routing between them is the source ternary. -/
theorem resolve_target_routing (u cwd : String) :
    (is_url u = true → resolveTarget u cwd = parseUrlToString u ∧ resolveTarget u cwd = u) ∧
    (is_url u = false → resolveTarget u cwd = fileUrl u cwd ∧
      ∃ rest, fileUrl u cwd = "file://" ++ rest) := by
  constructor
  · intro h
    exact ⟨by simp [resolveTarget, h], by simp [resolveTarget, h, parseUrlToString]⟩
  · intro h
    refine ⟨by simp [resolveTarget, h], ⟨_, rfl⟩⟩

theorem resolve_target_routing_witness :
    is_url "http://example.com/a" = true ∧
    resolveTarget "http://example.com/a" "/root" = "http://example.com/a" ∧
    is_url "page.html" = false ∧
    resolveTarget "page.html" "/root" = fileUrl "page.html" "/root" :=
  ⟨by decide, ((resolve_target_routing "http://example.com/a" "/root").1 (by decide)).2,
   by decide, ((resolve_target_routing "page.html" "/root").2 (by decide)).1⟩

theorem scrStage2_viewport_match (argv : ScreenshotArgv) (eng : Engine) (url : String)
    (w h : Nat) (hv : strTruthy argv.viewport = true)
    (hp : parseViewport (argv.viewport.getD "") = some (w, h)) :
    Event.setViewport w h ∈ (scrStage2 argv eng url).1 := by
  unfold parseViewport at hp
  rcases hG : viewportGroups (argv.viewport.getD "") with _ | g
  · rw [hG] at hp
    simp at hp
  · rw [hG] at hp
    simp at hp
    obtain ⟨hw, hh⟩ := hp
    subst hw
    subst hh
    unfold scrStage2
    simp [hv, hG, withEvent]

theorem scrStage2_viewport_mismatch (argv : ScreenshotArgv) (eng : Engine) (url : String)
    (hv : strTruthy argv.viewport = true)
    (hp : viewportGroups (argv.viewport.getD "") = none) :
    scrStage2 argv eng url = ([Event.stderrMsg viewportUsageMsg], Outcome.exit 1) := by
  unfold scrStage2
  simp [hv, hp]

/-- Claim C5 counterexample: the empty string is a supplied --viewport
value that does not match the digits-x-digits pattern, yet the run
reports no usage error, navigates and succeeds, because the code guards
on JavaScript truthiness and the empty string is falsy. -/
theorem viewport_counterexample :
    scrArgvViewportEmpty.viewport = some "" ∧
    parseViewport "" = none ∧
    (screenshotRun scrArgvViewportEmpty engOk "/root").2 = Outcome.success ∧
    Event.goto "file:///root/page.html" 30000 "load" ∈
      (screenshotRun scrArgvViewportEmpty engOk "/root").1 ∧
    Event.stderrMsg viewportUsageMsg ∉
      (screenshotRun scrArgvViewportEmpty engOk "/root").1 := by
  exact ⟨by decide, by decide, by decide, by decide, by decide⟩

/-- Claim C5 (amended): for a supplied non-empty viewport string, a
match of the digits-x-digits pattern (lowercase or uppercase x) yields
the parsed integer width and height, which are applied to the page, and
a mismatch writes the usage message and exits with status 1 before any
navigation; a supplied empty viewport string is treated as absent and
silently ignored. Concretely 800x600 and 800X600 parse to (800, 600)
while 800x, x600 and abcxdef fail to parse. -/
theorem viewport_parsing (sargv : ScreenshotArgv) (eng : Engine) (cwd : String)
    (w h : Nat) (hl : eng.launch = Except.ok ()) (hn : eng.newPage = Except.ok ())
    (hv : strTruthy sargv.viewport = true) :
    (parseViewport (sargv.viewport.getD "") = some (w, h) →
      Event.setViewport w h ∈ (screenshotRun sargv eng cwd).1) ∧
    (parseViewport (sargv.viewport.getD "") = none →
      (screenshotRun sargv eng cwd).2 = Outcome.exit 1 ∧
      Event.stderrMsg viewportUsageMsg ∈ (screenshotRun sargv eng cwd).1 ∧
      ∀ u t wc, Event.goto u t wc ∉ (screenshotRun sargv eng cwd).1) ∧
    parseViewport "800x600" = some (800, 600) ∧
    parseViewport "800X600" = some (800, 600) ∧
    parseViewport "800x" = none ∧
    parseViewport "x600" = none ∧
    parseViewport "abcxdef" = none := by
  refine ⟨?_, ?_, by decide, by decide, by decide, by decide, by decide⟩
  · intro hp
    unfold screenshotRun
    rw [hl, hn]
    simp [withEvent]
    exact scrStage2_viewport_match sargv eng _ w h hv hp
  · intro hp
    have hg : viewportGroups (sargv.viewport.getD "") = none := by
      unfold parseViewport at hp
      rcases hG : viewportGroups (sargv.viewport.getD "") with _ | g
      · rfl
      · rw [hG] at hp
        simp at hp
    have h2 := scrStage2_viewport_mismatch sargv eng (resolveTarget sargv.url cwd) hv hg
    unfold screenshotRun
    rw [hl, hn, h2]
    refine ⟨by simp [withEvent], by simp [withEvent], ?_⟩
    intro u t wc
    simp [withEvent]

theorem viewport_parsing_witness :
    strTruthy scrArgvViewport.viewport = true ∧
    parseViewport "800x600" = some (800, 600) ∧
    Event.setViewport 800 600 ∈ (screenshotRun scrArgvViewport engOk "/root").1 :=
  ⟨by decide, by decide,
    (viewport_parsing scrArgvViewport engOk "/root" 800 600 rfl rfl (by decide)).1 (by decide)⟩

theorem jsStringOrNull_of_truthy (o : Option String) (h : strTruthy o = true) :
    jsStringOrNull o = o := by
  rcases o with _ | s
  · simp [strTruthy] at h
  · simp [strTruthy] at h
    simp [jsStringOrNull, h]

theorem jsStringOrNull_of_falsy (o : Option String) (h : strTruthy o = false) :
    jsStringOrNull o = none := by
  rcases o with _ | s
  · simp [jsStringOrNull]
  · simp [strTruthy] at h
    simp [jsStringOrNull, h]

theorem printShape_writeStdout (argv : PrintArgv)
    (h : printEventShape argv Event.writeStdout) : strTruthy argv.output = false := by
  rcases h with ⟨s, h⟩ | h | h | h | ⟨cs', hok, h⟩ | ⟨u, h⟩ | h | ⟨s, h⟩ | h | ⟨o, h⟩ | ⟨hf, h⟩ <;>
    simp_all

theorem scrShape_writeStdout (argv : ScreenshotArgv)
    (h : scrEventShape argv Event.writeStdout) : strTruthy argv.output = false := by
  rcases h with ⟨s, h⟩ | h | h | ⟨g, hg, h⟩ | ⟨cs', hok, h⟩ | ⟨u, h⟩ | h | ⟨hf, h⟩ <;>
    simp_all

theorem scrShape_screenshotCall (argv : ScreenshotArgv) (o : ScreenshotOptions)
    (h : scrEventShape argv (Event.screenshotCall o)) : o = buildScreenshotOptions argv := by
  rcases h with ⟨s, h⟩ | h | h | ⟨g, hg, h⟩ | ⟨cs', hok, h⟩ | ⟨u, h⟩ | h | ⟨hf, h⟩ <;>
    simp_all

theorem printStage7_stdout (argv : PrintArgv) (eng : Engine) (hw : Option Nat × Option String)
    (ho : strTruthy argv.output = false) :
    (printStage7 argv eng hw).2 = Outcome.success →
    Event.writeStdout ∈ (printStage7 argv eng hw).1 := by
  intro hs
  unfold printStage7 at hs ⊢
  rcases h : eng.pdf with er | u
  · rw [h] at hs
    simp [withEvent, printFail] at hs
  · simp [ho, withEvent]

theorem printStage6_stdout (argv : PrintArgv) (eng : Engine) (hw : Option Nat × Option String)
    (ho : strTruthy argv.output = false) :
    (printStage6 argv eng hw).2 = Outcome.success →
    Event.writeStdout ∈ (printStage6 argv eng hw).1 := by
  intro hs
  unfold printStage6 at hs ⊢
  by_cases hme : argv.emulateMedia = ""
  · simp [hme] at hs ⊢
    exact printStage7_stdout argv eng hw ho hs
  · simp [hme] at hs ⊢
    rcases h : eng.emulateMedia with er | u
    · rw [h] at hs
      simp [withEvent, printFail] at hs
    · rw [h] at hs
      simp [withEvent] at hs ⊢
      exact printStage7_stdout argv eng hw ho hs

theorem printStage5_stdout (argv : PrintArgv) (eng : Engine) (hw : Option Nat × Option String)
    (ho : strTruthy argv.output = false) :
    (printStage5 argv eng hw).2 = Outcome.success →
    Event.writeStdout ∈ (printStage5 argv eng hw).1 := by
  intro hs
  unfold printStage5 at hs ⊢
  by_cases hj : argv.injectJs = ""
  · simp [hj] at hs ⊢
    exact printStage6_stdout argv eng hw ho hs
  · simp [hj] at hs ⊢
    rcases h : eng.evalScripts with er | scripts
    · rw [h] at hs
      simp [withEvent, printFail] at hs
    · rw [h] at hs
      rcases hi : eng.evalInject with er | u
      · rw [hi] at hs
        simp [withEvent, printFail] at hs
      · rw [hi] at hs
        simp [withEvent] at hs ⊢
        exact printStage6_stdout argv eng hw ho hs

theorem printStage4_stdout (argv : PrintArgv) (eng : Engine)
    (ho : strTruthy argv.output = false) :
    (printStage4 argv eng).2 = Outcome.success →
    Event.writeStdout ∈ (printStage4 argv eng).1 := by
  intro hs
  unfold printStage4 at hs ⊢
  by_cases hf : argv.format = "auto"
  · simp [hf, withEvent] at hs ⊢
    rcases h : eng.evalHeight with er | hv
    · rw [h] at hs
      simp [withEvent, printFail] at hs
    · rw [h] at hs
      simp [withEvent] at hs ⊢
      exact printStage5_stdout argv eng _ ho hs
  · simp [hf, withEvent] at hs ⊢
    exact printStage5_stdout argv eng _ ho hs

theorem printStage3_stdout (argv : PrintArgv) (eng : Engine) (url : String)
    (ho : strTruthy argv.output = false) :
    (printStage3 argv eng url).2 = Outcome.success →
    Event.writeStdout ∈ (printStage3 argv eng url).1 := by
  intro hs
  unfold printStage3 at hs ⊢
  rcases h : eng.goto with er | u
  · rw [h] at hs
    simp [withEvent, printFail] at hs
  · rw [h] at hs
    simp [withEvent] at hs ⊢
    exact printStage4_stdout argv eng ho hs

theorem printStage2_stdout (argv : PrintArgv) (eng : Engine) (url : String)
    (ho : strTruthy argv.output = false) :
    (printStage2 argv eng url).2 = Outcome.success →
    Event.writeStdout ∈ (printStage2 argv eng url).1 := by
  intro hs
  unfold printStage2 at hs ⊢
  by_cases hc : cookieArgTruthy argv.cookie
  · simp [hc] at hs ⊢
    rcases h : buildCookies argv.url (cookieArgValue argv.cookie) with er | cs
    · rw [h] at hs
      simp [withEvent, printFail] at hs
    · rw [h] at hs
      rcases hcs : eng.setCookie with er | u
      · rw [hcs] at hs
        simp [withEvent, printFail] at hs
      · rw [hcs] at hs
        simp [withEvent] at hs ⊢
        exact printStage3_stdout argv eng url ho hs
  · simp [hc] at hs ⊢
    exact printStage3_stdout argv eng url ho hs

theorem printRun_stdout (argv : PrintArgv) (eng : Engine) (cwd : String)
    (ho : strTruthy argv.output = false) :
    (printRun argv eng cwd).2 = Outcome.success →
    Event.writeStdout ∈ (printRun argv eng cwd).1 := by
  intro hs
  unfold printRun at hs ⊢
  rcases h : eng.launch with er | u
  · rw [h] at hs
    simp [withEvent, printFail] at hs
  · rw [h] at hs
    rcases hn : eng.newPage with er | u
    · rw [hn] at hs
      simp [withEvent, printFail] at hs
    · rw [hn] at hs
      simp [withEvent] at hs ⊢
      exact printStage2_stdout argv eng _ ho hs

theorem scrStage5_stdout (argv : ScreenshotArgv) (eng : Engine)
    (ho : strTruthy argv.output = false) :
    (scrStage5 argv eng).2 = Outcome.success →
    Event.writeStdout ∈ (scrStage5 argv eng).1 := by
  intro hs
  unfold scrStage5 at hs ⊢
  rcases h : eng.screenshot with er | u
  · rw [h] at hs
    simp [withEvent, scrFail] at hs
  · simp [ho, withEvent]

theorem scrStage4_stdout (argv : ScreenshotArgv) (eng : Engine) (url : String)
    (ho : strTruthy argv.output = false) :
    (scrStage4 argv eng url).2 = Outcome.success →
    Event.writeStdout ∈ (scrStage4 argv eng url).1 := by
  intro hs
  unfold scrStage4 at hs ⊢
  rcases h : eng.goto with er | u
  · rw [h] at hs
    simp [withEvent, scrFail] at hs
  · rw [h] at hs
    simp [withEvent] at hs ⊢
    exact scrStage5_stdout argv eng ho hs

theorem scrStage3_stdout (argv : ScreenshotArgv) (eng : Engine) (url : String)
    (ho : strTruthy argv.output = false) :
    (scrStage3 argv eng url).2 = Outcome.success →
    Event.writeStdout ∈ (scrStage3 argv eng url).1 := by
  intro hs
  unfold scrStage3 at hs ⊢
  by_cases hc : cookieArgTruthy argv.cookie
  · simp [hc] at hs ⊢
    rcases h : buildCookies argv.url (cookieArgValue argv.cookie) with er | cs
    · rw [h] at hs
      simp [withEvent, scrFail] at hs
    · rw [h] at hs
      rcases hcs : eng.setCookie with er | u
      · rw [hcs] at hs
        simp [withEvent, scrFail] at hs
      · rw [hcs] at hs
        simp [withEvent] at hs ⊢
        exact scrStage4_stdout argv eng url ho hs
  · simp [hc] at hs ⊢
    exact scrStage4_stdout argv eng url ho hs

theorem scrStage2_stdout (argv : ScreenshotArgv) (eng : Engine) (url : String)
    (ho : strTruthy argv.output = false) :
    (scrStage2 argv eng url).2 = Outcome.success →
    Event.writeStdout ∈ (scrStage2 argv eng url).1 := by
  intro hs
  unfold scrStage2 at hs ⊢
  by_cases hv : strTruthy argv.viewport
  · simp [hv] at hs ⊢
    rcases hG : viewportGroups ((argv.viewport).getD "") with _ | g
    · rw [hG] at hs
      simp at hs
    · rw [hG] at hs
      rcases hsv : eng.setViewport with er | u
      · rw [hsv] at hs
        simp [withEvent, scrFail] at hs
      · rw [hsv] at hs
        simp [withEvent] at hs ⊢
        exact scrStage3_stdout argv eng url ho hs
  · simp [hv] at hs ⊢
    exact scrStage3_stdout argv eng url ho hs

theorem screenshotRun_stdout (argv : ScreenshotArgv) (eng : Engine) (cwd : String)
    (ho : strTruthy argv.output = false) :
    (screenshotRun argv eng cwd).2 = Outcome.success →
    Event.writeStdout ∈ (screenshotRun argv eng cwd).1 := by
  intro hs
  unfold screenshotRun at hs ⊢
  rcases h : eng.launch with er | u
  · rw [h] at hs
    simp [withEvent, scrFail] at hs
  · rw [h] at hs
    rcases hn : eng.newPage with er | u
    · rw [hn] at hs
      simp [withEvent, scrFail] at hs
    · rw [hn] at hs
      simp [withEvent] at hs ⊢
      exact scrStage2_stdout argv eng _ ho hs

/-- Claim C4 counterexample: with the output positional supplied as the
empty string the run succeeds, yet the pdf call receives no file path
(so no output file is created) and the buffer goes to standard output —
an output path argument was given but the file sink is not used. -/
theorem output_sink_counterexample :
    printArgvOutEmpty.output = some "" ∧
    (printRun printArgvOutEmpty engOk "/root").2 = Outcome.success ∧
    Event.pdf (buildPdfOptions printArgvOutEmpty (none, none)) ∈
      (printRun printArgvOutEmpty engOk "/root").1 ∧
    (buildPdfOptions printArgvOutEmpty (none, none)).path = none ∧
    Event.writeStdout ∈ (printRun printArgvOutEmpty engOk "/root").1 := by
  exact ⟨by decide, by decide, by decide, by decide, by decide⟩

/-- Claim C4 (amended): in every run of either command, when the output
positional is a non-empty string every render call receives it as its
file path and standard output is never written; when the output
positional is absent or the empty string every render call receives no
file path and, on a successful run, the buffer is written to standard
output. The two sinks are mutually exclusive. -/
theorem output_sink_selection (argv : PrintArgv) (sargv : ScreenshotArgv)
    (eng : Engine) (cwd : String) :
    (strTruthy argv.output = true →
      (∀ o, Event.pdf o ∈ (printRun argv eng cwd).1 → o.path = argv.output) ∧
      Event.writeStdout ∉ (printRun argv eng cwd).1) ∧
    (strTruthy argv.output = false →
      (∀ o, Event.pdf o ∈ (printRun argv eng cwd).1 → o.path = none) ∧
      ((printRun argv eng cwd).2 = Outcome.success →
        Event.writeStdout ∈ (printRun argv eng cwd).1)) ∧
    (strTruthy sargv.output = true →
      (∀ o, Event.screenshotCall o ∈ (screenshotRun sargv eng cwd).1 →
        o.path = sargv.output) ∧
      Event.writeStdout ∉ (screenshotRun sargv eng cwd).1) ∧
    (strTruthy sargv.output = false →
      (∀ o, Event.screenshotCall o ∈ (screenshotRun sargv eng cwd).1 → o.path = none) ∧
      ((screenshotRun sargv eng cwd).2 = Outcome.success →
        Event.writeStdout ∈ (screenshotRun sargv eng cwd).1)) := by
  refine ⟨fun ht => ⟨?_, ?_⟩, fun hf => ⟨?_, printRun_stdout argv eng cwd hf⟩,
    fun ht => ⟨?_, ?_⟩, fun hf => ⟨?_, screenshotRun_stdout sargv eng cwd hf⟩⟩
  · intro o hm
    obtain ⟨hm2, _⟩ := printRun_pdf_sub argv eng cwd o hm
    obtain ⟨hm3, _⟩ := printStage2_pdf_sub argv eng _ o hm2
    obtain ⟨hm4, _⟩ := printStage3_pdf_sub argv eng _ o hm3
    obtain ⟨hw, heq, _⟩ := printStage4_pdf argv eng o hm4
    rw [heq]
    show jsStringOrNull argv.output = argv.output
    exact jsStringOrNull_of_truthy argv.output ht
  · intro hm
    have hsh := printShape_writeStdout argv (mem_printRun argv eng cwd _ hm)
    rw [ht] at hsh
    exact Bool.noConfusion hsh
  · intro o hm
    obtain ⟨hm2, _⟩ := printRun_pdf_sub argv eng cwd o hm
    obtain ⟨hm3, _⟩ := printStage2_pdf_sub argv eng _ o hm2
    obtain ⟨hm4, _⟩ := printStage3_pdf_sub argv eng _ o hm3
    obtain ⟨hw, heq, _⟩ := printStage4_pdf argv eng o hm4
    rw [heq]
    show jsStringOrNull argv.output = none
    exact jsStringOrNull_of_falsy argv.output hf
  · intro o hm
    have heq := scrShape_screenshotCall sargv o (mem_screenshotRun sargv eng cwd _ hm)
    rw [heq]
    show jsStringOrNull sargv.output = sargv.output
    exact jsStringOrNull_of_truthy sargv.output ht
  · intro hm
    have hsh := scrShape_writeStdout sargv (mem_screenshotRun sargv eng cwd _ hm)
    rw [ht] at hsh
    exact Bool.noConfusion hsh
  · intro o hm
    have heq := scrShape_screenshotCall sargv o (mem_screenshotRun sargv eng cwd _ hm)
    rw [heq]
    show jsStringOrNull sargv.output = none
    exact jsStringOrNull_of_falsy sargv.output hf

theorem output_sink_selection_witness :
    strTruthy printArgvOut.output = true ∧
    Event.writeStdout ∉ (printRun printArgvOut engOk "/root").1 ∧
    strTruthy scrArgvOut.output = true ∧
    Event.writeStdout ∉ (screenshotRun scrArgvOut engOk "/root").1 :=
  ⟨by decide,
    ((output_sink_selection printArgvOut scrArgvOut engOk "/root").1 (by decide)).2,
    by decide,
    ((output_sink_selection printArgvOut scrArgvOut engOk "/root").2.2.1 (by decide)).2⟩

theorem parseCookieString_error_of_noColon (url s : String) (h : hasNoColon s = true) :
    parseCookieString url s = Except.error "cookie must contain : delimiter" := by
  unfold parseCookieString
  have hn : s.toList.findIdx? (fun ch => ch == ':') = none := by
    rw [List.findIdx?_eq_none_iff]
    intro x hx
    unfold hasNoColon at h
    simpa using List.all_eq_true.mp h x hx
  rw [hn]

theorem mapThrow_error_of_missing (url : String) (l : List String)
    (h : l.any hasNoColon = true) :
    ∃ e, mapThrow url l = Except.error e := by
  induction l with
  | nil => simp at h
  | cons s rest ih =>
      rw [List.any_cons] at h
      by_cases hs : hasNoColon s = true
      · refine ⟨"cookie must contain : delimiter", ?_⟩
        unfold mapThrow
        rw [parseCookieString_error_of_noColon url s hs]
      · have hor : hasNoColon s = true ∨ rest.any hasNoColon = true := by
          simpa using h
        have hr : rest.any hasNoColon = true := by
          rcases hor with h1 | h2
          · exact absurd h1 hs
          · exact h2
        obtain ⟨e, he⟩ := ih hr
        unfold mapThrow
        rcases hp : parseCookieString url s with er | c0
        · exact ⟨er, rfl⟩
        · refine ⟨e, ?_⟩
          rw [he]

theorem buildCookies_error_of_missing (url : String) (arg : CookieArg)
    (ht : cookieArgTruthy (some arg) = true)
    (hm : someCookieMissingColon arg = true) :
    ∃ e, buildCookies url arg = Except.error e := by
  rcases arg with s | l
  · unfold buildCookies
    apply mapThrow_error_of_missing
    show (s.toList.map (fun c => String.singleton c)).any hasNoColon = true
    rcases hsl : s.toList with _ | ⟨c, cs⟩
    · exfalso
      have hs0 : s = "" := String.ext (by simpa [String.toList] using hsl)
      rw [hs0] at ht
      simp [cookieArgTruthy] at ht
    · rw [List.any_eq_true]
      refine ⟨String.singleton c, List.mem_map_of_mem _ (List.mem_cons_self c cs), ?_⟩
      unfold someCookieMissingColon at hm
      unfold hasNoColon at hm ⊢
      have hc := List.all_eq_true.mp hm c (by rw [hsl]; exact List.mem_cons_self c cs)
      simpa [String.singleton] using hc
  · exact mapThrow_error_of_missing url l hm

theorem printStage2_cookie_abort (argv : PrintArgv) (eng : Engine) (url : String)
    (arg : CookieArg) (ha : argv.cookie = some arg)
    (ht : cookieArgTruthy (some arg) = true) (e : String)
    (he : buildCookies argv.url arg = Except.error e) :
    printStage2 argv eng url =
      ([Event.stderrMsg "Setting cookies",
        Event.stderrMsg ("Failed to generate pdf: " ++ e)], Outcome.exit 1) := by
  unfold printStage2
  simp [ha, ht, cookieArgValue, he, withEvent, printFail]

theorem scrStage3_cookie_abort (sargv : ScreenshotArgv) (eng : Engine) (url : String)
    (sarg : CookieArg) (hb : sargv.cookie = some sarg)
    (ht : cookieArgTruthy (some sarg) = true) (e : String)
    (he : buildCookies sargv.url sarg = Except.error e) :
    scrStage3 sargv eng url =
      ([Event.stderrMsg "Setting cookies",
        Event.stderrMsg ("Failed to take screenshot: " ++ e)], Outcome.exit 1) := by
  unfold scrStage3
  simp [hb, ht, cookieArgValue, he, withEvent, scrFail]

theorem scrStage2_cookie_abort (sargv : ScreenshotArgv) (eng : Engine) (url : String)
    (sarg : CookieArg) (hb : sargv.cookie = some sarg)
    (ht : cookieArgTruthy (some sarg) = true) (e : String)
    (he : buildCookies sargv.url sarg = Except.error e) :
    (scrStage2 sargv eng url).2 = Outcome.exit 1 ∧
    ∀ u t w, Event.goto u t w ∉ (scrStage2 sargv eng url).1 := by
  have h3 := scrStage3_cookie_abort sargv eng url sarg hb ht e he
  unfold scrStage2
  by_cases hv : strTruthy sargv.viewport
  · rcases hG : viewportGroups ((sargv.viewport).getD "") with _ | g
    · refine ⟨by simp [hv, hG], ?_⟩
      intro u t w
      simp [hv, hG]
    · rcases hsv : eng.setViewport with er | usv
      · refine ⟨by simp [hv, hG, hsv, withEvent, scrFail], ?_⟩
        intro u t w
        simp [hv, hG, hsv, withEvent, scrFail]
      · refine ⟨by simp [hv, hG, hsv, withEvent, h3], ?_⟩
        intro u t w
        simp [hv, hG, hsv, withEvent, h3]
  · refine ⟨by simp [hv, h3], ?_⟩
    intro u t w
    simp [hv, h3]

/-- Claim C7 counterexample: a single --cookie occurrence whose value is
the empty string contains no colon, yet the run does not fail: the
truthiness guard skips cookie handling entirely, navigation is
attempted and the run completes successfully. -/
theorem cookie_missing_delimiter_counterexample :
    printArgvCookieEmptyOne.cookie = some (CookieArg.one "") ∧
    someCookieMissingColon (CookieArg.one "") = true ∧
    (printRun printArgvCookieEmptyOne engOk "/root").2 = Outcome.success ∧
    Event.goto "file:///root/page.html" 30000 "load" ∈
      (printRun printArgvCookieEmptyOne engOk "/root").1 := by
  exact ⟨by decide, by decide, by decide, by decide⟩

/-- Claim C7 (amended): whenever the supplied cookie argument is truthy
(repeated occurrences, or one non-empty string) and some supplied
cookie string contains no colon, cookie parsing fails with an error,
the run of either command exits with status 1, and no navigation is
attempted; a single empty cookie string is falsy and is silently
ignored instead of failing. -/
theorem cookie_missing_delimiter_aborts (argv : PrintArgv) (sargv : ScreenshotArgv)
    (eng : Engine) (cwd : String) (arg sarg : CookieArg)
    (ha : argv.cookie = some arg) (hta : cookieArgTruthy (some arg) = true)
    (hma : someCookieMissingColon arg = true)
    (hb : sargv.cookie = some sarg) (htb : cookieArgTruthy (some sarg) = true)
    (hmb : someCookieMissingColon sarg = true) :
    (∃ e, buildCookies argv.url arg = Except.error e) ∧
    (printRun argv eng cwd).2 = Outcome.exit 1 ∧
    (∀ u t w, Event.goto u t w ∉ (printRun argv eng cwd).1) ∧
    (∃ e, buildCookies sargv.url sarg = Except.error e) ∧
    (screenshotRun sargv eng cwd).2 = Outcome.exit 1 ∧
    (∀ u t w, Event.goto u t w ∉ (screenshotRun sargv eng cwd).1) := by
  obtain ⟨e, he⟩ := buildCookies_error_of_missing argv.url arg hta hma
  obtain ⟨f, hf⟩ := buildCookies_error_of_missing sargv.url sarg htb hmb
  have h2 := printStage2_cookie_abort argv eng (resolveTarget argv.url cwd) arg ha hta e he
  have hscr2 := scrStage2_cookie_abort sargv eng (resolveTarget sargv.url cwd) sarg hb htb f hf
  refine ⟨⟨e, he⟩, ?_, ?_, ⟨f, hf⟩, ?_, ?_⟩
  · unfold printRun
    rcases h : eng.launch with er | u
    · simp [withEvent, printFail]
    · rcases hn : eng.newPage with er | un
      · simp [withEvent, printFail]
      · simp [withEvent, h2]
  · intro u t w
    unfold printRun
    rcases h : eng.launch with er | uu
    · simp [withEvent, printFail]
    · rcases hn : eng.newPage with er | un
      · simp [withEvent, printFail]
      · simp [withEvent, h2]
  · unfold screenshotRun
    rcases h : eng.launch with er | uu
    · simp [withEvent, scrFail]
    · rcases hn : eng.newPage with er | un
      · simp [withEvent, scrFail]
      · simp [withEvent, hscr2.1]
  · intro u t w
    unfold screenshotRun
    rcases h : eng.launch with er | uu
    · simp [withEvent, scrFail]
    · rcases hn : eng.newPage with er | un
      · simp [withEvent, scrFail]
      · simp [withEvent]
        exact hscr2.2 u t w

theorem cookie_missing_delimiter_aborts_witness :
    printArgvCookieMissing.cookie = some (CookieArg.many ["a:b", "nocolon"]) ∧
    someCookieMissingColon (CookieArg.many ["a:b", "nocolon"]) = true ∧
    (printRun printArgvCookieMissing engOk "/root").2 = Outcome.exit 1 ∧
    Event.goto "file:///root/page.html" 30000 "load" ∉
      (printRun printArgvCookieMissing engOk "/root").1 :=
  ⟨by decide, by decide,
    (cookie_missing_delimiter_aborts printArgvCookieMissing scrArgvCookieMissing engOk "/root"
        (CookieArg.many ["a:b", "nocolon"]) (CookieArg.many ["nocolon"])
        (by decide) (by decide) (by decide) (by decide) (by decide) (by decide)).2.1,
    (cookie_missing_delimiter_aborts printArgvCookieMissing scrArgvCookieMissing engOk "/root"
        (CookieArg.many ["a:b", "nocolon"]) (CookieArg.many ["nocolon"])
        (by decide) (by decide) (by decide) (by decide) (by decide) (by decide)).2.2.1
      "file:///root/page.html" 30000 "load"⟩

theorem printFinish_exit (eng : Engine) (c : Nat) :
    (printFinish eng).2 = Outcome.exit c →
    c = 1 ∧ ∃ e, Event.stderrMsg ("Failed to generate pdf: " ++ e) ∈ (printFinish eng).1 := by
  intro hx
  unfold printFinish at hx
  rcases h : eng.close with er | u
  · rw [h] at hx
    simp [withEvent, printFail] at hx
    refine ⟨by omega, er, ?_⟩
    unfold printFinish
    rw [h]
    simp [withEvent, printFail]
  · rw [h] at hx
    simp [withEvent] at hx

theorem printStage7_exit (argv : PrintArgv) (eng : Engine) (hw : Option Nat × Option String)
    (c : Nat) : (printStage7 argv eng hw).2 = Outcome.exit c →
    c = 1 ∧ ∃ e, Event.stderrMsg ("Failed to generate pdf: " ++ e) ∈
      (printStage7 argv eng hw).1 := by
  intro hx
  unfold printStage7 at hx
  rcases h : eng.pdf with er | u
  · rw [h] at hx
    simp [withEvent, printFail] at hx
    refine ⟨by omega, er, ?_⟩
    unfold printStage7
    rw [h]
    simp [withEvent, printFail]
  · rw [h] at hx
    by_cases ho : strTruthy argv.output
    · simp [ho, withEvent] at hx
      obtain ⟨hc, e, hmem⟩ := printFinish_exit eng c hx
      refine ⟨hc, e, ?_⟩
      unfold printStage7
      rw [h]
      simp [ho, withEvent]
      exact hmem
    · simp [ho, withEvent] at hx
      obtain ⟨hc, e, hmem⟩ := printFinish_exit eng c hx
      refine ⟨hc, e, ?_⟩
      unfold printStage7
      rw [h]
      simp [ho, withEvent]
      exact hmem

theorem printStage6_exit (argv : PrintArgv) (eng : Engine) (hw : Option Nat × Option String)
    (c : Nat) : (printStage6 argv eng hw).2 = Outcome.exit c →
    c = 1 ∧ ∃ e, Event.stderrMsg ("Failed to generate pdf: " ++ e) ∈
      (printStage6 argv eng hw).1 := by
  intro hx
  unfold printStage6 at hx
  by_cases hme : argv.emulateMedia = ""
  · simp [hme] at hx
    obtain ⟨hc, e, hmem⟩ := printStage7_exit argv eng hw c hx
    refine ⟨hc, e, ?_⟩
    unfold printStage6
    simp [hme]
    exact hmem
  · simp [hme] at hx
    rcases h : eng.emulateMedia with er | u
    · rw [h] at hx
      simp [withEvent, printFail] at hx
      refine ⟨by omega, er, ?_⟩
      unfold printStage6
      rw [h]
      simp [hme, withEvent, printFail]
    · rw [h] at hx
      simp [withEvent] at hx
      obtain ⟨hc, e, hmem⟩ := printStage7_exit argv eng hw c hx
      refine ⟨hc, e, ?_⟩
      unfold printStage6
      rw [h]
      simp [hme, withEvent]
      exact hmem

theorem printStage5_exit (argv : PrintArgv) (eng : Engine) (hw : Option Nat × Option String)
    (c : Nat) : (printStage5 argv eng hw).2 = Outcome.exit c →
    c = 1 ∧ ∃ e, Event.stderrMsg ("Failed to generate pdf: " ++ e) ∈
      (printStage5 argv eng hw).1 := by
  intro hx
  unfold printStage5 at hx
  by_cases hj : argv.injectJs = ""
  · simp [hj] at hx
    obtain ⟨hc, e, hmem⟩ := printStage6_exit argv eng hw c hx
    refine ⟨hc, e, ?_⟩
    unfold printStage5
    simp [hj]
    exact hmem
  · simp [hj] at hx
    rcases h : eng.evalScripts with er | scripts
    · rw [h] at hx
      simp [withEvent, printFail] at hx
      refine ⟨by omega, er, ?_⟩
      unfold printStage5
      rw [h]
      simp [hj, withEvent, printFail]
    · rw [h] at hx
      rcases hi : eng.evalInject with er | u
      · rw [hi] at hx
        simp [withEvent, printFail] at hx
        refine ⟨by omega, er, ?_⟩
        unfold printStage5
        rw [h, hi]
        simp [hj, withEvent, printFail]
      · rw [hi] at hx
        simp [withEvent] at hx
        obtain ⟨hc, e, hmem⟩ := printStage6_exit argv eng hw c hx
        refine ⟨hc, e, ?_⟩
        unfold printStage5
        rw [h, hi]
        simp [hj, withEvent]
        exact hmem

theorem printStage4_exit (argv : PrintArgv) (eng : Engine) (c : Nat) :
    (printStage4 argv eng).2 = Outcome.exit c →
    c = 1 ∧ ∃ e, Event.stderrMsg ("Failed to generate pdf: " ++ e) ∈
      (printStage4 argv eng).1 := by
  intro hx
  unfold printStage4 at hx
  by_cases hf : argv.format = "auto"
  · simp [hf, withEvent] at hx
    rcases h : eng.evalHeight with er | hv
    · rw [h] at hx
      simp [withEvent, printFail] at hx
      refine ⟨by omega, er, ?_⟩
      unfold printStage4
      rw [h]
      simp [hf, withEvent, printFail]
    · rw [h] at hx
      simp [withEvent] at hx
      obtain ⟨hc, e, hmem⟩ := printStage5_exit argv eng _ c hx
      refine ⟨hc, e, ?_⟩
      unfold printStage4
      rw [h]
      simp [hf, withEvent]
      exact Or.inr hmem
  · simp [hf, withEvent] at hx
    obtain ⟨hc, e, hmem⟩ := printStage5_exit argv eng _ c hx
    refine ⟨hc, e, ?_⟩
    unfold printStage4
    simp [hf, withEvent]
    exact Or.inr hmem

theorem printStage3_exit (argv : PrintArgv) (eng : Engine) (url : String) (c : Nat) :
    (printStage3 argv eng url).2 = Outcome.exit c →
    c = 1 ∧ ∃ e, Event.stderrMsg ("Failed to generate pdf: " ++ e) ∈
      (printStage3 argv eng url).1 := by
  intro hx
  unfold printStage3 at hx
  rcases h : eng.goto with er | u
  · rw [h] at hx
    simp [withEvent, printFail] at hx
    refine ⟨by omega, er, ?_⟩
    unfold printStage3
    rw [h]
    simp [withEvent, printFail]
  · rw [h] at hx
    simp [withEvent] at hx
    obtain ⟨hc, e, hmem⟩ := printStage4_exit argv eng c hx
    refine ⟨hc, e, ?_⟩
    unfold printStage3
    rw [h]
    simp [withEvent]
    exact Or.inr hmem

theorem printStage2_exit (argv : PrintArgv) (eng : Engine) (url : String) (c : Nat) :
    (printStage2 argv eng url).2 = Outcome.exit c →
    c = 1 ∧ ∃ e, Event.stderrMsg ("Failed to generate pdf: " ++ e) ∈
      (printStage2 argv eng url).1 := by
  intro hx
  unfold printStage2 at hx
  by_cases hc : cookieArgTruthy argv.cookie
  · simp [hc] at hx
    rcases h : buildCookies argv.url (cookieArgValue argv.cookie) with er | cs
    · rw [h] at hx
      simp [withEvent, printFail] at hx
      refine ⟨by omega, er, ?_⟩
      unfold printStage2
      rw [h]
      simp [hc, withEvent, printFail]
    · rw [h] at hx
      rcases hcs : eng.setCookie with er | u
      · rw [hcs] at hx
        simp [withEvent, printFail] at hx
        refine ⟨by omega, er, ?_⟩
        unfold printStage2
        rw [h, hcs]
        simp [hc, withEvent, printFail]
      · rw [hcs] at hx
        simp [withEvent] at hx
        obtain ⟨hcc, e, hmem⟩ := printStage3_exit argv eng url c hx
        refine ⟨hcc, e, ?_⟩
        unfold printStage2
        rw [h, hcs]
        simp [hc, withEvent]
        exact Or.inr hmem
  · simp [hc] at hx
    obtain ⟨hcc, e, hmem⟩ := printStage3_exit argv eng url c hx
    refine ⟨hcc, e, ?_⟩
    unfold printStage2
    simp [hc]
    exact hmem

theorem printRun_exit (argv : PrintArgv) (eng : Engine) (cwd : String) (c : Nat) :
    (printRun argv eng cwd).2 = Outcome.exit c →
    c = 1 ∧ ∃ e, Event.stderrMsg ("Failed to generate pdf: " ++ e) ∈
      (printRun argv eng cwd).1 := by
  intro hx
  unfold printRun at hx
  rcases h : eng.launch with er | u
  · rw [h] at hx
    simp [withEvent, printFail] at hx
    refine ⟨by omega, er, ?_⟩
    unfold printRun
    rw [h]
    simp [withEvent, printFail]
  · rw [h] at hx
    rcases hn : eng.newPage with er | un
    · rw [hn] at hx
      simp [withEvent, printFail] at hx
      refine ⟨by omega, er, ?_⟩
      unfold printRun
      rw [h, hn]
      simp [withEvent, printFail]
    · rw [hn] at hx
      simp [withEvent] at hx
      obtain ⟨hcc, e, hmem⟩ := printStage2_exit argv eng _ c hx
      refine ⟨hcc, e, ?_⟩
      unfold printRun
      rw [h, hn]
      simp [withEvent]
      exact hmem

theorem scrFinish_exit (eng : Engine) (c : Nat) :
    (scrFinish eng).2 = Outcome.exit c →
    c = 1 ∧ ∃ e, Event.stderrMsg ("Failed to take screenshot: " ++ e) ∈ (scrFinish eng).1 := by
  intro hx
  unfold scrFinish at hx
  rcases h : eng.close with er | u
  · rw [h] at hx
    simp [withEvent, scrFail] at hx
    refine ⟨by omega, er, ?_⟩
    unfold scrFinish
    rw [h]
    simp [withEvent, scrFail]
  · rw [h] at hx
    simp [withEvent] at hx

theorem scrStage5_exit (argv : ScreenshotArgv) (eng : Engine) (c : Nat) :
    (scrStage5 argv eng).2 = Outcome.exit c →
    c = 1 ∧ ∃ e, Event.stderrMsg ("Failed to take screenshot: " ++ e) ∈
      (scrStage5 argv eng).1 := by
  intro hx
  unfold scrStage5 at hx
  rcases h : eng.screenshot with er | u
  · rw [h] at hx
    simp [withEvent, scrFail] at hx
    refine ⟨by omega, er, ?_⟩
    unfold scrStage5
    rw [h]
    simp [withEvent, scrFail]
  · rw [h] at hx
    by_cases ho : strTruthy argv.output
    · simp [ho, withEvent] at hx
      obtain ⟨hc, e, hmem⟩ := scrFinish_exit eng c hx
      refine ⟨hc, e, ?_⟩
      unfold scrStage5
      rw [h]
      simp [ho, withEvent]
      exact Or.inr hmem
    · simp [ho, withEvent] at hx
      obtain ⟨hc, e, hmem⟩ := scrFinish_exit eng c hx
      refine ⟨hc, e, ?_⟩
      unfold scrStage5
      rw [h]
      simp [ho, withEvent]
      exact Or.inr hmem

theorem scrStage4_exit (argv : ScreenshotArgv) (eng : Engine) (url : String) (c : Nat) :
    (scrStage4 argv eng url).2 = Outcome.exit c →
    c = 1 ∧ ∃ e, Event.stderrMsg ("Failed to take screenshot: " ++ e) ∈
      (scrStage4 argv eng url).1 := by
  intro hx
  unfold scrStage4 at hx
  rcases h : eng.goto with er | u
  · rw [h] at hx
    simp [withEvent, scrFail] at hx
    refine ⟨by omega, er, ?_⟩
    unfold scrStage4
    rw [h]
    simp [withEvent, scrFail]
  · rw [h] at hx
    simp [withEvent] at hx
    obtain ⟨hc, e, hmem⟩ := scrStage5_exit argv eng c hx
    refine ⟨hc, e, ?_⟩
    unfold scrStage4
    rw [h]
    simp [withEvent]
    exact Or.inr hmem

theorem scrStage3_exit (argv : ScreenshotArgv) (eng : Engine) (url : String) (c : Nat) :
    (scrStage3 argv eng url).2 = Outcome.exit c →
    c = 1 ∧ ∃ e, Event.stderrMsg ("Failed to take screenshot: " ++ e) ∈
      (scrStage3 argv eng url).1 := by
  intro hx
  unfold scrStage3 at hx
  by_cases hc : cookieArgTruthy argv.cookie
  · simp [hc] at hx
    rcases h : buildCookies argv.url (cookieArgValue argv.cookie) with er | cs
    · rw [h] at hx
      simp [withEvent, scrFail] at hx
      refine ⟨by omega, er, ?_⟩
      unfold scrStage3
      rw [h]
      simp [hc, withEvent, scrFail]
    · rw [h] at hx
      rcases hcs : eng.setCookie with er | u
      · rw [hcs] at hx
        simp [withEvent, scrFail] at hx
        refine ⟨by omega, er, ?_⟩
        unfold scrStage3
        rw [h, hcs]
        simp [hc, withEvent, scrFail]
      · rw [hcs] at hx
        simp [withEvent] at hx
        obtain ⟨hcc, e, hmem⟩ := scrStage4_exit argv eng url c hx
        refine ⟨hcc, e, ?_⟩
        unfold scrStage3
        rw [h, hcs]
        simp [hc, withEvent]
        exact Or.inr hmem
  · simp [hc] at hx
    obtain ⟨hcc, e, hmem⟩ := scrStage4_exit argv eng url c hx
    refine ⟨hcc, e, ?_⟩
    unfold scrStage3
    simp [hc]
    exact hmem

theorem scrStage2_exit (argv : ScreenshotArgv) (eng : Engine) (url : String) (c : Nat) :
    (scrStage2 argv eng url).2 = Outcome.exit c →
    c = 1 ∧ ((∃ e, Event.stderrMsg ("Failed to take screenshot: " ++ e) ∈
        (scrStage2 argv eng url).1) ∨
      Event.stderrMsg viewportUsageMsg ∈ (scrStage2 argv eng url).1) := by
  intro hx
  unfold scrStage2 at hx
  by_cases hv : strTruthy argv.viewport
  · simp [hv] at hx
    rcases hG : viewportGroups ((argv.viewport).getD "") with _ | g
    · rw [hG] at hx
      simp at hx
      refine ⟨by omega, Or.inr ?_⟩
      unfold scrStage2
      simp [hv, hG]
    · rw [hG] at hx
      rcases hsv : eng.setViewport with er | u
      · rw [hsv] at hx
        simp [withEvent, scrFail] at hx
        refine ⟨by omega, Or.inl ⟨er, ?_⟩⟩
        unfold scrStage2
        rw [hsv]
        simp [hv, hG, withEvent, scrFail]
      · rw [hsv] at hx
        simp [withEvent] at hx
        obtain ⟨hc, e, hmem⟩ := scrStage3_exit argv eng url c hx
        refine ⟨hc, Or.inl ⟨e, ?_⟩⟩
        unfold scrStage2
        rw [hsv]
        simp [hv, hG, withEvent]
        exact Or.inr hmem
  · simp [hv] at hx
    obtain ⟨hc, e, hmem⟩ := scrStage3_exit argv eng url c hx
    refine ⟨hc, Or.inl ⟨e, ?_⟩⟩
    unfold scrStage2
    simp [hv]
    exact hmem

theorem screenshotRun_exit (argv : ScreenshotArgv) (eng : Engine) (cwd : String) (c : Nat) :
    (screenshotRun argv eng cwd).2 = Outcome.exit c →
    c = 1 ∧ ((∃ e, Event.stderrMsg ("Failed to take screenshot: " ++ e) ∈
        (screenshotRun argv eng cwd).1) ∨
      Event.stderrMsg viewportUsageMsg ∈ (screenshotRun argv eng cwd).1) := by
  intro hx
  unfold screenshotRun at hx
  rcases h : eng.launch with er | u
  · rw [h] at hx
    simp [withEvent, scrFail] at hx
    refine ⟨by omega, Or.inl ⟨er, ?_⟩⟩
    unfold screenshotRun
    rw [h]
    simp [withEvent, scrFail]
  · rw [h] at hx
    rcases hn : eng.newPage with er | un
    · rw [hn] at hx
      simp [withEvent, scrFail] at hx
      refine ⟨by omega, Or.inl ⟨er, ?_⟩⟩
      unfold screenshotRun
      rw [h, hn]
      simp [withEvent, scrFail]
    · rw [hn] at hx
      simp [withEvent] at hx
      obtain ⟨hc, hrest⟩ := scrStage2_exit argv eng _ c hx
      refine ⟨hc, ?_⟩
      rcases hrest with ⟨e, hmem⟩ | hmem
      · refine Or.inl ⟨e, ?_⟩
        unfold screenshotRun
        rw [h, hn]
        simp [withEvent]
        exact hmem
      · refine Or.inr ?_
        unfold screenshotRun
        rw [h, hn]
        simp [withEvent]
        exact hmem

/-- Claim C8: every failing run of either command terminates with exit
status 1 — usage errors and engine errors are indistinguishable by exit
status — and an error thrown by any pipeline step is reported on the
diagnostic stream prefixed with the fixed handler label; for the
screenshot command the only other failing exit is the viewport usage
message, which is reported on the diagnostic stream without the label
because it is not a thrown error. -/
theorem errors_exit_one_labeled (argv : PrintArgv) (sargv : ScreenshotArgv)
    (eng : Engine) (cwd : String) (c d : Nat) :
    ((printRun argv eng cwd).2 = Outcome.exit c →
      c = 1 ∧ ∃ e, Event.stderrMsg ("Failed to generate pdf: " ++ e) ∈
        (printRun argv eng cwd).1) ∧
    ((screenshotRun sargv eng cwd).2 = Outcome.exit d →
      d = 1 ∧ ((∃ e, Event.stderrMsg ("Failed to take screenshot: " ++ e) ∈
          (screenshotRun sargv eng cwd).1) ∨
        Event.stderrMsg viewportUsageMsg ∈ (screenshotRun sargv eng cwd).1)) :=
  ⟨printRun_exit argv eng cwd c, screenshotRun_exit sargv eng cwd d⟩

theorem errors_exit_one_labeled_witness :
    (printRun printArgvBase engGotoFail "/root").2 = Outcome.exit 1 ∧
    (1 = 1 ∧ ∃ e, Event.stderrMsg ("Failed to generate pdf: " ++ e) ∈
      (printRun printArgvBase engGotoFail "/root").1) :=
  ⟨by decide,
    (errors_exit_one_labeled printArgvBase scrArgvBase engGotoFail "/root" 1 1).1 (by decide)⟩

theorem scrShape_no_setJS (argv : ScreenshotArgv) (b : Bool)
    (h : scrEventShape argv (Event.setJavaScriptEnabled b)) : False := by
  rcases h with ⟨s, h⟩ | h | h | ⟨g, hg, h⟩ | ⟨cs', hok, h⟩ | ⟨u, h⟩ | h | ⟨_, h⟩ <;> simp_all

/-- Claim C9: the print command disables JavaScript immediately after
page creation and before navigation — the first three events of every
print run that obtains a page are launch, newPage and
setJavaScriptEnabled false — while the screenshot command never
disables JavaScript in any run. -/
theorem print_disables_javascript (argv : PrintArgv) (sargv : ScreenshotArgv)
    (eng : Engine) (cwd : String)
    (hl : eng.launch = Except.ok ()) (hn : eng.newPage = Except.ok ()) :
    (printRun argv eng cwd).1.take 3 =
      [Event.launch (buildLaunchArgs argv.sandbox), Event.newPage,
        Event.setJavaScriptEnabled false] ∧
    ∀ b, Event.setJavaScriptEnabled b ∉ (screenshotRun sargv eng cwd).1 := by
  constructor
  · unfold printRun
    rw [hl, hn]
    rfl
  · intro b hm
    exact scrShape_no_setJS sargv b (mem_screenshotRun sargv eng cwd _ hm)

theorem print_disables_javascript_witness :
    (printRun printArgvBase engOk "/root").1.take 3 =
      [Event.launch (buildLaunchArgs printArgvBase.sandbox), Event.newPage,
        Event.setJavaScriptEnabled false] ∧
    Event.setJavaScriptEnabled false ∉ (screenshotRun scrArgvBase engOk "/root").1 :=
  ⟨(print_disables_javascript printArgvBase scrArgvBase engOk "/root" rfl rfl).1,
   (print_disables_javascript printArgvBase scrArgvBase engOk "/root" rfl rfl).2 false⟩

theorem printStage5_inject (argv : PrintArgv) (eng : Engine)
    (hw : Option Nat × Option String) (sb sa : String) (hj : argv.injectJs ≠ "")
    (hs : eng.evalScripts = Except.ok (sb, sa)) :
    Event.evalScriptTags ∈ (printStage5 argv eng hw).1 ∧
    Event.evaluate (sb ++ ";" ++ argv.injectJs ++ ";" ++ sa) ∈ (printStage5 argv eng hw).1 := by
  unfold printStage5
  rw [hs]
  simp [hj, withEvent]

theorem printStage4_inject (argv : PrintArgv) (eng : Engine) (sb sa : String)
    (hj : argv.injectJs ≠ "") (hs : eng.evalScripts = Except.ok (sb, sa))
    (hh : argv.format = "auto" → ∃ hv, eng.evalHeight = Except.ok hv) :
    Event.evalScriptTags ∈ (printStage4 argv eng).1 ∧
    Event.evaluate (sb ++ ";" ++ argv.injectJs ++ ";" ++ sa) ∈ (printStage4 argv eng).1 := by
  unfold printStage4
  by_cases hf : argv.format = "auto"
  · obtain ⟨hv, hhv⟩ := hh hf
    rw [hhv]
    simp [hf, withEvent]
    have hi := printStage5_inject argv eng (some hv, some "1366") sb sa hj hs
    exact ⟨hi.1, Or.inr hi.2⟩
  · simp [hf, withEvent]
    exact printStage5_inject argv eng (none, none) sb sa hj hs

theorem printStage3_inject (argv : PrintArgv) (eng : Engine) (url : String) (sb sa : String)
    (hj : argv.injectJs ≠ "") (hs : eng.evalScripts = Except.ok (sb, sa))
    (hh : argv.format = "auto" → ∃ hv, eng.evalHeight = Except.ok hv)
    (hg : eng.goto = Except.ok ()) :
    Event.evalScriptTags ∈ (printStage3 argv eng url).1 ∧
    Event.evaluate (sb ++ ";" ++ argv.injectJs ++ ";" ++ sa) ∈ (printStage3 argv eng url).1 := by
  unfold printStage3
  rw [hg]
  simp [withEvent]
  have hi := printStage4_inject argv eng sb sa hj hs hh
  exact ⟨hi.1, hi.2⟩

theorem printStage2_inject (argv : PrintArgv) (eng : Engine) (url : String) (sb sa : String)
    (hj : argv.injectJs ≠ "") (hs : eng.evalScripts = Except.ok (sb, sa))
    (hh : argv.format = "auto" → ∃ hv, eng.evalHeight = Except.ok hv)
    (hg : eng.goto = Except.ok ()) (hc : cookieArgTruthy argv.cookie = false) :
    Event.evalScriptTags ∈ (printStage2 argv eng url).1 ∧
    Event.evaluate (sb ++ ";" ++ argv.injectJs ++ ";" ++ sa) ∈ (printStage2 argv eng url).1 := by
  unfold printStage2
  simp [hc]
  exact printStage3_inject argv eng url sb sa hj hs hh hg

/-- Claim C10: in a print run with a non-empty inject-js value that
reaches the injection step, the page is first queried for the text
content of its script#before and script#after elements and the script
actually evaluated is the concatenation scriptBefore, a semicolon, the
injected script, a semicolon, and scriptAfter. -/
theorem inject_js_wrapped (argv : PrintArgv) (eng : Engine) (cwd : String) (sb sa : String)
    (hl : eng.launch = Except.ok ()) (hn : eng.newPage = Except.ok ())
    (hc : cookieArgTruthy argv.cookie = false)
    (hg : eng.goto = Except.ok ())
    (hh : argv.format = "auto" → ∃ hv, eng.evalHeight = Except.ok hv)
    (hj : argv.injectJs ≠ "")
    (hs : eng.evalScripts = Except.ok (sb, sa)) :
    Event.evalScriptTags ∈ (printRun argv eng cwd).1 ∧
    Event.evaluate (sb ++ ";" ++ argv.injectJs ++ ";" ++ sa) ∈ (printRun argv eng cwd).1 := by
  unfold printRun
  rw [hl, hn]
  simp [withEvent]
  have hi := printStage2_inject argv eng (resolveTarget argv.url cwd) sb sa hj hs hh hg hc
  exact ⟨hi.1, hi.2⟩

theorem inject_js_wrapped_witness :
    printArgvInject.injectJs = "doStuff()" ∧
    Event.evaluate ("BEFORE" ++ ";" ++ printArgvInject.injectJs ++ ";" ++ "AFTER") ∈
      (printRun printArgvInject engOk "/root").1 :=
  ⟨rfl,
    (inject_js_wrapped printArgvInject engOk "/root" "BEFORE" "AFTER" rfl rfl (by decide) rfl
        (fun hf => absurd hf (by decide)) (by decide) rfl).2⟩

example : buildCookies "u" (CookieArg.many ["name:value:extra"]) =
    Except.ok [{ name := "name", value := "value:extra", url := "u" }] := by decide
example : buildCookies "u" (CookieArg.one "name:value:extra") =
    Except.error "cookie must contain : delimiter" := by decide
example : parseViewport "800x600" = some (800, 600) := by decide
example : parseViewport "800X600" = some (800, 600) := by decide
example : parseViewport "800x" = none := by decide
example : parseViewport "x600" = none := by decide
example : parseViewport "abcxdef" = none := by decide
example : parseViewport "" = none := by decide
example : is_url "http://example.com/a" = true := by decide
example : is_url "page.html" = false := by decide
example : resolveTarget "page.html" "/root" = "file:///root/page.html" := by decide
